import Mathlib

/-!
Verification of the svlib DPI support library

Shallow embedding of `src/dpi/svlib_dpi.c` (and the enums of
`src/svlib_shared_c_sv.h`): the argument-file flattener, the lazy
collection iterator, the regular-expression adapter, the glob producer
and the scratch buffer manager.

Conventions of the embedding.
* A C pointer that may be `NULL` is an `Option`; `none` is `NULL`.
* A pointer into a null-terminated array of pointers (`char**`) walking an
  argument vector is the list of cells from the pointed-to element up to,
  and excluding, the terminating `NULL`; `*p == NULL` is `p = []` and
  `++p` is the tail.
* Behaviour the C standard leaves undefined (dereferencing `NULL`, reading
  through a pointer of the wrong type, writing outside an allocation) is a
  `Fault`, returned through `Except`.
* Static variables of a function are an explicit state record that is
  passed in and returned.
-/

namespace Svlib

/-! ## Argument-file flattener (`svlib_dpi_imported_getVlogInfoNext`) -/

/-- One element of an argument vector as `vpi_get_vlog_info` lays it out:
either a `char*` string, or (after a `-f`/`-F` element) a `char**` pointing
to the nested vector, stored in the same `char*` slot. -/
inductive Cell where
  | str (s : String)
  | vec (v : List Cell)

/-- Undefined or fatal behaviour of the C code. -/
inductive Fault where
  /-- Dereference of a null or uninitialised pointer. -/
  | badPointer
  /-- A `char**` stored in a slot was read as a string by `strcmp`. -/
  | notAString
  /-- A string was cast to `char**` and pushed as a nested vector. -/
  | notAVector
  /-- A pointer was advanced past the terminating `NULL` and then used. -/
  | pastSentinel
  /-- Access to `argv_stack[i]` with `i` outside the allocation. -/
  | stackOutOfBounds (i : Nat)
  /-- The `assert` of the source failed. -/
  | assertFailed
  /-- The loop budget of the model was exhausted. -/
  | outOfFuel
  deriving DecidableEq

/-- Source constant `#define ARGV_STACK_PTR_SIZE 32`. -/
def ARGV_STACK_PTR_SIZE : Nat := 32

/-- The two `static` variables of `svlib_dpi_imported_getVlogInfoNext`:
`argv_stack` (`NULL`, or the 32-slot array; a slot that holds no valid
pointer is `none`) and `argv_stack_ptr`. -/
structure FlatState where
  argv_stack : Option (List (Option (List Cell)))
  argv_stack_ptr : Nat

/-- Initial value of the statics: `argv_stack = NULL`, `argv_stack_ptr = 0`. -/
def FlatState.initial : FlatState := ⟨none, 0⟩

/-- What one call of `svlib_dpi_imported_getVlogInfoNext` produces: the
returned `const char*`, the statics afterwards and `*info_argv` afterwards. -/
structure NextResult where
  ret : Option String
  state : FlatState
  info_argv : Option (List Cell)

/-- Source test `0==strcmp(x, "-f") || 0==strcmp(x, "-F")`. -/
def isIndirection (s : String) : Bool := s == "-f" || s == "-F"

/-- The `while (1)` loop of `svlib_dpi_imported_getVlogInfoNext`; the first
argument bounds the number of iterations. -/
def getVlogInfoNextLoop :
    Nat → List (Option (List Cell)) → Nat → Option (List Cell) → Except Fault NextResult
  | 0, _, _, _ => .error .outOfFuel
  | fuel + 1, argv_stack, argv_stack_ptr, info_argv =>
    match argv_stack[argv_stack_ptr]? with
    | none => .error (.stackOutOfBounds argv_stack_ptr)
    | some none => .error .badPointer
    | some (some []) =>
      -- at end of current array: pop stack
      if argv_stack_ptr = 0 then
        -- argv_stack = NULL; argv_stack_ptr = 0; *info_argv = NULL; return NULL
        .ok ⟨none, ⟨none, 0⟩, none⟩
      else
        getVlogInfoNextLoop fuel argv_stack (argv_stack_ptr - 1) info_argv
    | some (some (.vec _ :: _)) => .error .notAString
    | some (some (.str s :: rest)) =>
      if isIndirection s then
        -- ++argv_stack[argv_stack_ptr]
        let stack1 := argv_stack.set argv_stack_ptr (some rest)
        -- argv_stack[argv_stack_ptr+1] = (char **)*argv_stack[argv_stack_ptr]
        if ARGV_STACK_PTR_SIZE ≤ argv_stack_ptr + 1 then
          .error (.stackOutOfBounds (argv_stack_ptr + 1))
        else
          match rest with
          | [] => .error .badPointer
          | .str _ :: _ => .error .notAVector
          | .vec v :: rest2 =>
            let stack2 := stack1.set (argv_stack_ptr + 1) (some v)
            -- ++argv_stack[argv_stack_ptr]
            let stack3 := stack2.set argv_stack_ptr (some rest2)
            -- ++argv_stack_ptr
            let ptr2 := argv_stack_ptr + 1
            -- ++argv_stack[argv_stack_ptr]: skip the file name
            match v with
            | [] => .error .pastSentinel
            | _ :: body =>
              let stack4 := stack3.set ptr2 (some body)
              -- assert(argv_stack_ptr < ARGV_STACK_PTR_SIZE)
              if ptr2 < ARGV_STACK_PTR_SIZE then
                getVlogInfoNextLoop fuel stack4 ptr2 info_argv
              else
                .error .assertFailed
      else
        -- char *r = *argv_stack[argv_stack_ptr]; ++argv_stack[argv_stack_ptr]; return r
        .ok ⟨some s, ⟨some (argv_stack.set argv_stack_ptr (some rest)), argv_stack_ptr⟩, info_argv⟩

mutual
/-- Number of cells of a vector, nested vectors included. -/
def sizeVec : List Cell → Nat
  | [] => 0
  | c :: cs => sizeCell c + sizeVec cs
termination_by structural x => x
/-- Number of cells reachable from one cell, itself included. -/
def sizeCell : Cell → Nat
  | .str _ => 1
  | .vec v => 1 + sizeVec v
termination_by structural x => x
end

/-- Cells still to be visited through one stack slot, plus one for the pop. -/
def slotWork : Option (Option (List Cell)) → Nat
  | some (some f) => sizeVec f + 1
  | _ => 1

/-- Work left in the slots `0..n-1` of the stack. With `n` the number of
live slots (`argv_stack_ptr + 1`) this bounds the number of iterations the
loop can make before it returns. -/
def stackWork (stack : List (Option (List Cell))) : Nat → Nat
  | 0 => 0
  | n + 1 => slotWork stack[n]? + stackWork stack n

/-- Embedding of `svlib_dpi_imported_getVlogInfoNext(void** info_argv)`.
On the first call of a traversal the stack is allocated (the source does not
test `malloc`) and slot 0 receives `*info_argv`. -/
def svlib_dpi_imported_getVlogInfoNext (st : FlatState) (info_argv : Option (List Cell)) :
    Except Fault NextResult :=
  let argv_stack :=
    match st.argv_stack with
    | none => (List.replicate ARGV_STACK_PTR_SIZE none).set 0 info_argv
    | some stack => stack
  getVlogInfoNextLoop (stackWork argv_stack (st.argv_stack_ptr + 1) + 1)
    argv_stack st.argv_stack_ptr info_argv

/-- Successive calls of `svlib_dpi_imported_getVlogInfoNext`, each fed the
statics and the handle the previous one left: the list of returned values,
the final statics and the final handle. -/
def getVlogInfoCalls :
    Nat → FlatState → Option (List Cell) →
      Except Fault (List (Option String) × FlatState × Option (List Cell))
  | 0, st, info_argv => .ok ([], st, info_argv)
  | n + 1, st, info_argv =>
    match svlib_dpi_imported_getVlogInfoNext st info_argv with
    | .error e => .error e
    | .ok r =>
      match getVlogInfoCalls n r.state r.info_argv with
      | .error e => .error e
      | .ok (out, st2, h2) => .ok (r.ret :: out, st2, h2)

/-- Well-formed argument vector whose indirections nest at most `d` levels
deep: every element is a string; a `-f`/`-F` string is followed by a pointer
to a nested vector that starts with a label element and is itself well
formed with nesting at most `d - 1`. -/
inductive WellFormed : Nat → List Cell → Prop
  | nil (d : Nat) : WellFormed d []
  | arg (d : Nat) (s : String) (rest : List Cell) :
      isIndirection s = false → WellFormed d rest → WellFormed d (.str s :: rest)
  | file (d : Nat) (s : String) (label : Cell) (body rest : List Cell) :
      isIndirection s = true → WellFormed d body → WellFormed (d + 1) rest →
      WellFormed (d + 1) (.str s :: .vec (label :: body) :: rest)

mutual
/-- Specification of the flattening, after the words of the spec: every
indirection pair is replaced inline by the contents of its target vector,
the target's own label element excluded, recursively and left to right. -/
def flattenVec : List Cell → List String
  | [] => []
  | c :: rest =>
    match c with
    | .str s => if isIndirection s then flattenAfterFlag rest else s :: flattenVec rest
    | .vec _ => flattenVec rest
termination_by structural x => x
/-- Flattening of what follows a `-f`/`-F` element: the target, then the rest. -/
def flattenAfterFlag : List Cell → List String
  | [] => []
  | c :: rest => flattenTarget c ++ flattenVec rest
termination_by structural x => x
/-- Flattening of the target of an indirection. -/
def flattenTarget : Cell → List String
  | .str _ => []
  | .vec v => flattenBody v
termination_by structural x => x
/-- Flattening of a nested vector: its elements without the label. -/
def flattenBody : List Cell → List String
  | [] => []
  | _ :: body => flattenVec body
termination_by structural x => x
end


/-- Arguments still to be returned through one stack slot. -/
def slotArgs : Option (Option (List Cell)) → List String
  | some (some f) => flattenVec f
  | _ => []

/-- Arguments still to be returned through the slots `0..n-1`: those of the
highest slot first, then those of the slots below. -/
def pendingArgs (stack : List (Option (List Cell))) : Nat → List String
  | 0 => []
  | n + 1 => slotArgs stack[n]? ++ pendingArgs stack n

/-- Invariant of a traversal in progress: the stack has its 32 slots, the
stack pointer is inside it, and every live slot `i` points into a
well-formed vector that nests at most `31 - i` levels further. -/
def StackInv (stack : List (Option (List Cell))) (ptr : Nat) : Prop :=
  stack.length = ARGV_STACK_PTR_SIZE ∧ ptr < ARGV_STACK_PTR_SIZE ∧
    ∀ i, i ≤ ptr → ∃ f, stack[i]? = some (some f) ∧ WellFormed (31 - i) f


/-! ## Constants of the C library headers

`errno.h`, `glob.h` and `regex.h` are not part of the repository; the values
of their macros are parameters of the embedding. -/

/-- The `errno.h` codes the source returns. -/
structure ErrnoCodes where
  ENOMEM : Int
  EACCES : Int
  ENOTSUP : Int
  ERANGE : Int

/-- Return codes of `glob()` that the source switches on. -/
structure GlobCodes where
  GLOB_NOSPACE : Int
  GLOB_ABORTED : Int
  GLOB_NOMATCH : Int

/-- The case labels of the `switch` in `svlib_dpi_imported_globStart`,
`0` included, are pairwise distinct (C requires it of case labels). -/
def GlobCodes.Distinct (G : GlobCodes) : Prop :=
  G.GLOB_NOSPACE ≠ 0 ∧ G.GLOB_ABORTED ≠ 0 ∧ G.GLOB_NOMATCH ≠ 0 ∧
  G.GLOB_NOSPACE ≠ G.GLOB_ABORTED ∧ G.GLOB_NOSPACE ≠ G.GLOB_NOMATCH ∧
  G.GLOB_ABORTED ≠ G.GLOB_NOMATCH

/-- Flags and the "no match" code of `regex.h`. -/
structure RegexCodes where
  REG_EXTENDED : Nat
  REG_ICASE : Nat
  REG_NEWLINE : Nat
  REG_NOMATCH : Nat

/-- The values of the GNU C library on Linux. -/
def glibcErrno : ErrnoCodes := ⟨12, 13, 95, 34⟩

/-- The values of the GNU C library. -/
def glibcGlob : GlobCodes := ⟨1, 2, 3⟩

/-- The values of the GNU C library. -/
def glibcRegex : RegexCodes := ⟨1, 2, 4, 1⟩

/-- Conversion of a C `int` to `uint32_t`. -/
def toUInt32 (i : Int) : Nat := (i % 4294967296).toNat

/-- Reading of a `uint32_t` as a 32-bit two's complement `int`, which is
how the importing side (`function int`) sees the returned status. -/
def toInt32 (n : Nat) : Int :=
  if n % 4294967296 < 2147483648 then (n % 4294967296 : Nat) else (n % 4294967296 : Nat) - 4294967296

/-! ## Lazy collection iterator (`saBuf`) and the glob producer -/

/-- The `char**` cursor of a handle: the array of string pointers it walks
(a `NULL` element is `none`) and the index of the current element. -/
structure ScanPtr where
  array : List (Option String)
  index : Nat

/-- The functions of type `freeFunc_decl` that the library defines. -/
inductive FreeFunc where
  | glob_freeFunc
  deriving DecidableEq

/-- The fields of `glob_t` the source reads: `gl_pathc` and the
null-terminated `gl_pathv`. -/
structure glob_t where
  gl_pathc : Nat
  gl_pathv : List (Option String)

/-- Source type `struct saBuf`; pointers to other heap objects are addresses. -/
structure saBuf where
  scan : Option ScanPtr
  freeFunc : Option FreeFunc
  pAppData : Option Nat
  userData : Int
  link : Option Nat
  sanity_check : Option Nat

/-- The heap objects of the iterator: the live `saBuf` structs by address,
the live application-data blocks by address (`some none`: allocated, holding
no glob result), and the log of the calls of a release function, oldest
first, each with the handle it was called on. -/
structure Heap where
  bufs : Nat → Option saBuf
  appData : Nat → Option (Option glob_t)
  released : List (FreeFunc × Nat)

/-- Store into (or, with `none`, `free`) the `saBuf` at address `a`. -/
def Heap.setBuf (heap : Heap) (a : Nat) (b : Option saBuf) : Heap :=
  ⟨Function.update heap.bufs a b, heap.appData, heap.released⟩

/-- Store into the application-data block at address `d`. -/
def Heap.setAppData (heap : Heap) (d : Nat) (g : Option (Option glob_t)) : Heap :=
  ⟨heap.bufs, Function.update heap.appData d g, heap.released⟩

/-- The `saBuf` with its cursor replaced. -/
def saBuf.withScan (b : saBuf) (sc : Option ScanPtr) : saBuf :=
  ⟨sc, b.freeFunc, b.pAppData, b.userData, b.link, b.sanity_check⟩

/-- A `saBuf` just returned by `malloc`: its fields hold no valid value yet. -/
def saBuf.fresh : saBuf := ⟨none, none, none, 0, none, none⟩

/-- Embedding of `saBufCreate(dataBytes, ff, &created)`; `m1` and `m2` are
the results of its two `malloc` calls. Returns the status, `*created` and the
heap. -/
def saBufCreate (E : ErrnoCodes) (heap : Heap) (m1 m2 : Option Nat) (ff : Option FreeFunc) :
    Int × Option Nat × Heap :=
  -- *created = NULL
  match m1 with
  | none => (E.ENOMEM, none, heap)
  | some sa =>
    let heap1 := heap.setBuf sa (some saBuf.fresh)
    match m2 with
    | none =>
      -- free(sa)
      (E.ENOMEM, none, heap1.setBuf sa none)
    | some d =>
      let heap2 := heap1.setAppData d (some none)
      -- sanity_check = sa; link = NULL; freeFunc = ff; scan = NULL; userData = 0
      (0, some sa, heap2.setBuf sa (some ⟨none, ff, some d, 0, none, some sa⟩))

/-- Embedding of `glob_freeFunc(p)`: `globfree` on the application data,
then `free(p)`. -/
def glob_freeFunc (heap : Heap) (p : Option Nat) : Except Fault Heap :=
  match p with
  | none => .ok heap
  | some a =>
    match heap.bufs a with
    | none => .error .badPointer
    | some b =>
      -- globfree((glob_t*)(p->pAppData))
      let heap1 :=
        match b.pAppData with
        | none => heap
        | some d => heap.setAppData d (some none)
      -- free(p)
      let heap2 := heap1.setBuf a none
      .ok ⟨heap2.bufs, heap2.appData, heap.released ++ [(FreeFunc.glob_freeFunc, a)]⟩

/-- Call through a `freeFunc_decl` function pointer. -/
def FreeFunc.call : FreeFunc → Heap → Nat → Except Fault Heap
  | .glob_freeFunc, heap, p => Svlib.glob_freeFunc heap (some p)

/-- What `svlib_dpi_imported_saBufNext` produces: the returned status, the
handle `*h` and the string `*s` afterwards, and the heap. -/
structure SaBufNextResult where
  status : Int
  h : Option Nat
  s : Option String
  heap : Heap

/-- Embedding of `svlib_dpi_imported_saBufNext(void **h, const char **s)`. -/
def svlib_dpi_imported_saBufNext (E : ErrnoCodes) (heap : Heap) (h : Option Nat) :
    Except Fault SaBufNextResult :=
  -- *s = NULL
  match h with
  | none => .ok ⟨0, none, none, heap⟩
  | some p =>
    match heap.bufs p with
    | none => .error .badPointer
    | some b =>
      if b.sanity_check ≠ some p then
        .ok ⟨E.ENOMEM, some p, none, heap⟩
      else
        match b.scan with
        | none => .error .badPointer
        | some sc =>
          -- *s = *(p->scan)
          match sc.array[sc.index]? with
          | none => .error .pastSentinel
          | some s =>
            -- p->scan++
            let heap1 := heap.setBuf p (some (b.withScan (some ⟨sc.array, sc.index + 1⟩)))
            match s with
            | none =>
              -- *h = NULL
              match b.freeFunc with
              | none => .ok ⟨0, none, none, heap1⟩
              | some ff =>
                match ff.call heap1 p with
                | .error e => .error e
                | .ok heap2 => .ok ⟨0, none, none, heap2⟩
            | some str => .ok ⟨0, some p, some str, heap1⟩

/-- Successive calls of `svlib_dpi_imported_saBufNext`, each fed the handle
and the heap the previous one left: the list of (status, string) pairs, the
final handle and the final heap. -/
def saBufNextCalls (E : ErrnoCodes) :
    Nat → Heap → Option Nat → Except Fault (List (Int × Option String) × Option Nat × Heap)
  | 0, heap, h => .ok ([], h, heap)
  | n + 1, heap, h =>
    match svlib_dpi_imported_saBufNext E heap h with
    | .error e => .error e
    | .ok r =>
      match saBufNextCalls E n r.heap r.h with
      | .error e => .error e
      | .ok (out, h2, heap2) => .ok ((r.status, r.s) :: out, h2, heap2)

/-- What `svlib_dpi_imported_globStart` produces: the returned status, the
handle `*h`, the count `*number` and the heap. -/
structure GlobStartResult where
  status : Int
  h : Option Nat
  number : Nat
  heap : Heap

/-- Embedding of `svlib_dpi_imported_globStart(pattern, &h, &number)`. The
native `glob` is the parameter `glob`, giving its return value and the
`glob_t` it fills in; `m1` and `m2` are the results of the two `malloc`
calls of `saBufCreate`. -/
def svlib_dpi_imported_globStart (E : ErrnoCodes) (G : GlobCodes)
    (glob : String → Int × glob_t) (heap : Heap) (m1 m2 : Option Nat) (pattern : String) :
    Except Fault GlobStartResult :=
  -- *number = 0; *h = NULL
  match saBufCreate E heap m1 m2 (some FreeFunc.glob_freeFunc) with
  | (result, sa, heap1) =>
    if result ≠ 0 then .ok ⟨result, none, 0, heap1⟩
    else
      match sa with
      | none => .error .badPointer
      | some a =>
        match heap1.bufs a with
        | none => .error .badPointer
        | some b =>
          match b.pAppData with
          | none => .error .badPointer
          | some d =>
            -- result = glob(pattern, GLOB_ERR | GLOB_MARK, NULL, sa->pAppData)
            let (result, g) := glob pattern
            let heap2 := heap1.setAppData d (some (some g))
            if result = G.GLOB_NOSPACE then
              match glob_freeFunc heap2 (some a) with
              | .error e => .error e
              | .ok heap3 => .ok ⟨E.ENOMEM, none, 0, heap3⟩
            else if result = G.GLOB_ABORTED then
              match glob_freeFunc heap2 (some a) with
              | .error e => .error e
              | .ok heap3 => .ok ⟨E.EACCES, none, 0, heap3⟩
            else if result = G.GLOB_NOMATCH then
              match glob_freeFunc heap2 (some a) with
              | .error e => .error e
              | .ok heap3 => .ok ⟨0, none, 0, heap3⟩
            else if result = 0 then
              -- sa->scan = gl_pathv; *number = gl_pathc; *h = sa
              let heap3 := heap2.setBuf a (some (b.withScan (some ⟨g.gl_pathv, 0⟩)))
              .ok ⟨0, some a, g.gl_pathc, heap3⟩
            else
              match glob_freeFunc heap2 (some a) with
              | .error e => .error e
              | .ok heap3 => .ok ⟨E.ENOTSUP, none, 0, heap3⟩

/-! ## Regular-expression adapter (`svlib_dpi_imported_regexRun`) -/

/-- Source enum `REGEX_OPTIONS_ENUM`: `regexNOCASE = 1`. -/
def regexNOCASE : Nat := 1

/-- Source enum `REGEX_OPTIONS_ENUM`: `regexNOLINE = 2`. -/
def regexNOLINE : Nat := 2

/-- The open array behind an `svOpenArrayHandle` of `int` elements: the
number of unpacked dimensions, the left and right index bounds of dimension
1, and the elements in memory order (the element of index `svLeft` first). -/
structure svOpenArray where
  dimensions : Nat
  left : Int
  right : Int
  elems : List Int

/-- DPI query `svDimensions`. -/
def svDimensions (a : svOpenArray) : Nat := a.dimensions

/-- DPI query `svSizeOfArray`: total size in bytes, four per `int` element. -/
def svSizeOfArray (a : svOpenArray) : Nat := 4 * a.elems.length

/-- DPI query `svLeft(h, 1)`. -/
def svLeft (a : svOpenArray) : Int := a.left

/-- DPI query `svGetArrElemPtr1(h, indx1)`: the position in memory of the
element whose index is `indx1`, or `NULL` when the index is outside the
range `[left:right]` of the array. -/
def svGetArrElemPtr1 (a : svOpenArray) (indx1 : Int) : Option Nat :=
  if (a.left ≤ indx1 ∧ indx1 ≤ a.right) ∨ (a.right ≤ indx1 ∧ indx1 ≤ a.left) then
    if (indx1 - a.left).natAbs < a.elems.length then some (indx1 - a.left).natAbs else none
  else none

/-- Store `*(regoff_t*)(svGetArrElemPtr1(matchList, indx1)) = v`. -/
def storeElem (a : svOpenArray) (indx1 : Int) (v : Int) : Except Fault svOpenArray :=
  match svGetArrElemPtr1 a indx1 with
  | none => .error .badPointer
  | some pos => .ok ⟨a.dimensions, a.left, a.right, a.elems.set pos v⟩

/-- Library type `regmatch_t`. -/
structure regmatch_t where
  rm_so : Int
  rm_eo : Int

/-- Library type `regex_t`: the number of parenthesised subexpressions and
the compiled form, which the adapter does not look at. -/
structure regex_t where
  re_nsub : Nat
  buffer : List Nat

/-- The pattern-matching engine of the C library. `regcomp re cflags` gives
the value stored into `uint32_t result` and the compiled pattern;
`regexec compiled str startPos nmatch` is the call
`regexec(&compiled, &(str[startPos]), nmatch, matches, 0)`: the value stored
into `result` and the contents written to `matches`. -/
structure RegexEngine where
  regcomp : String → Nat → Nat × regex_t
  regexec : regex_t → String → Int → Nat → Nat × (Nat → regmatch_t)

/-- The calls the adapter makes to the engine, in order. -/
inductive EngineCall where
  | regcomp (re : String) (cflags : Nat)
  | regexec (startPos : Int) (nmatch : Nat)
  | regfree
  deriving DecidableEq

/-- What `svlib_dpi_imported_regexRun` produces: the returned `uint32_t`,
`*matchCount`, the output array afterwards and the engine calls made. -/
structure RegexRunResult where
  status : Nat
  matchCount : Int
  matchList : svOpenArray
  calls : List EngineCall

/-- Compile flags built by `svlib_dpi_imported_regexRun` from the option
bitmap: `cflags = REG_EXTENDED; if (options & regexNOCASE) cflags |= REG_ICASE;
if (options & regexNOLINE) cflags |= REG_NEWLINE;`. -/
def regexCflags (R : RegexCodes) (options : Int) : Nat :=
  let cflags := R.REG_EXTENDED
  let cflags := if toUInt32 options &&& regexNOCASE ≠ 0 then cflags ||| R.REG_ICASE else cflags
  if toUInt32 options &&& regexNOLINE ≠ 0 then cflags ||| R.REG_NEWLINE else cflags

/-- Body of the copy loop of `svlib_dpi_imported_regexRun` for group `i`. -/
def copyMatch (startPos : Int) (ms : Nat → regmatch_t) (matchList : svOpenArray) (i : Nat) :
    Except Fault svOpenArray :=
  if (ms i).rm_so < 0 then
    match storeElem matchList (2 * i) (-1) with
    | .error e => .error e
    | .ok a => storeElem a (2 * i + 1) (-1)
  else
    match storeElem matchList (2 * i) ((ms i).rm_so + startPos) with
    | .error e => .error e
    | .ok a => storeElem a (2 * i + 1) ((ms i).rm_eo + startPos)

/-- The loop `for (i=0; i<numMatches && i<*matchCount; i++)`, entered at
index `i` with `n` iterations left. -/
def copyMatches (startPos : Int) (ms : Nat → regmatch_t) :
    Nat → Nat → svOpenArray → Except Fault svOpenArray
  | 0, _, matchList => .ok matchList
  | n + 1, i, matchList =>
    match copyMatch startPos ms matchList i with
    | .error e => .error e
    | .ok a => copyMatches startPos ms n (i + 1) a

/-- Embedding of `svlib_dpi_imported_regexRun(re, str, options, startPos,
&matchCount, matchList)`. The `malloc` of the scratch `matches` array is not
tested by the source and is taken to succeed; the diagnostic output of
`io_printf` is left out. -/
def svlib_dpi_imported_regexRun (R : RegexCodes) (eng : RegexEngine) (re str : String)
    (options startPos : Int) (matchList : svOpenArray) : Except Fault RegexRunResult :=
  -- *matchCount = 0
  if svDimensions matchList ≠ 1 then
    .ok ⟨toUInt32 (-1), 0, matchList, []⟩
  else
    let numMatches := svSizeOfArray matchList / 4
    if numMatches ≠ 0 ∧ numMatches % 2 ≠ 0 then
      .ok ⟨toUInt32 (-1), 0, matchList, []⟩
    else if numMatches ≠ 0 ∧ svLeft matchList ≠ 0 then
      .ok ⟨toUInt32 (-1), 0, matchList, []⟩
    else
      -- numMatches /= 2 (inside `if (numMatches != 0)`)
      let numMatches := if numMatches ≠ 0 then numMatches / 2 else numMatches
      let cflags := regexCflags R options
      let (result, compiled) := eng.regcomp re cflags
      if result ≠ 0 then
        .ok ⟨result, 0, matchList, [.regcomp re cflags, .regfree]⟩
      else
        -- *matchCount = compiled.re_nsub+1
        let matchCount := compiled.re_nsub + 1
        let (result, ms) := eng.regexec compiled str startPos numMatches
        let calls := [.regcomp re cflags, .regexec startPos numMatches, .regfree]
        if result = 0 then
          match copyMatches startPos ms (min numMatches matchCount) 0 matchList with
          | .error e => .error e
          | .ok a => .ok ⟨result, matchCount, a, calls⟩
        else if result = R.REG_NOMATCH then
          .ok ⟨0, 0, matchList, calls⟩
        else
          .ok ⟨result, matchCount, matchList, calls⟩

/-! ## Scratch buffer manager (`getLibStringBuffer`) -/

/-- Source constant `#define SVLIB_STRING_BUFFER_START_SIZE (256)`. -/
def SVLIB_STRING_BUFFER_START_SIZE : Nat := 256

/-- Source constant `#define SVLIB_STRING_BUFFER_LONGEST_PATHNAME (8192)`. -/
def SVLIB_STRING_BUFFER_LONGEST_PATHNAME : Nat := 8192

/-- The file-scope statics `libStringBuffer` (an address, or `NULL`) and
`libStringBufferSize`. -/
structure StringBuffer where
  libStringBuffer : Option Nat
  libStringBufferSize : Nat
  deriving DecidableEq

/-- Initial value of the statics: `libStringBuffer = NULL`,
`libStringBufferSize = 0`. -/
def StringBuffer.initial : StringBuffer := ⟨none, 0⟩

/-- Embedding of `getLibStringBuffer(size_t size)`: the returned pointer and
the statics afterwards. `malloc` gives, for a requested size, the address of
the new block or `NULL`. The parameter is unsigned, so `size<=0` holds
exactly for `0`; the product is taken in `size_t` (64 bits). -/
def getLibStringBuffer (malloc : Nat → Option Nat) (st : StringBuffer) (size : Nat) :
    Option Nat × StringBuffer :=
  if h : size ≤ 0 then
    if st.libStringBuffer = none then
      getLibStringBuffer malloc st SVLIB_STRING_BUFFER_START_SIZE
    else if h0 : size = 0 then
      (st.libStringBuffer, st)
    else
      getLibStringBuffer malloc st (2 * st.libStringBufferSize % 18446744073709551616)
  else if st.libStringBufferSize < size then
    match malloc size with
    | none =>
      -- perror(...): the existing buffer is returned, whatever it is
      (st.libStringBuffer, st)
    | some buf =>
      -- free(libStringBuffer); libStringBuffer = buf; libStringBufferSize = size
      (some buf, ⟨some buf, size⟩)
  else
    (st.libStringBuffer, st)
termination_by (if size = 0 then 1 else 0)
decreasing_by
  · have h1 : size = 0 := Nat.le_zero.mp h
    simp [h1, SVLIB_STRING_BUFFER_START_SIZE]
  · exact absurd (Nat.le_zero.mp h) h0

/-- Embedding of `getLibStringBufferSize()`. -/
def getLibStringBufferSize (st : StringBuffer) : Nat :=
  if st.libStringBuffer = none then 0 else st.libStringBufferSize

/-! ## Definitions used by the statements -/

/-- The calls of a release function that exhausting handle `p` makes: one
call of the registered function, none when the handle has no function. -/
def releaseCalls (ff : Option FreeFunc) (p : Nat) : List (FreeFunc × Nat) :=
  match ff with
  | some f => [(f, p)]
  | none => []

/-- A handle `p` that passes the self-check, with cursor at index `k` of
`arr`, release function `ff` and release log `rel`. -/
def ValidHandle (heap : Heap) (p : Nat) (arr : List (Option String)) (k : Nat)
    (ff : Option FreeFunc) (rel : List (FreeFunc × Nat)) : Prop :=
  ∃ b, heap.bufs p = some b ∧ b.sanity_check = some p ∧ b.scan = some ⟨arr, k⟩ ∧
    b.freeFunc = ff ∧ heap.released = rel

/-- A heap holding one handle, at address 1000, on the glob result
`a.sv`, `b.sv`. -/
def demoHeap : Heap :=
  ⟨fun a => if a = 1000 then
      some ⟨some ⟨[some "a.sv", some "b.sv", none], 0⟩, some FreeFunc.glob_freeFunc,
        some 2000, 0, none, some 1000⟩
    else none,
   fun d => if d = 2000 then some (some ⟨2, [some "a.sv", some "b.sv", none]⟩) else none,
   []⟩

/-- A heap holding one struct, at address 1000, whose self-check pointer
names another address. -/
def corruptHeap : Heap :=
  ⟨fun a => if a = 1000 then
      some ⟨some ⟨[some "a.sv", none], 0⟩, some FreeFunc.glob_freeFunc, some 2000, 0, none,
        some 4000⟩
    else none,
   fun _ => none, []⟩

/-- The heap with no object in it. -/
def Heap.empty : Heap := ⟨fun _ => none, fun _ => none, []⟩

/-- A native `glob` that finds two paths for `*.sv`, reports `GLOB_NOMATCH`
for any other pattern. -/
def demoGlob (pattern : String) : Int × glob_t :=
  if pattern = "*.sv" then (0, ⟨2, [some "a.sv", some "b.sv", none]⟩) else (3, ⟨0, []⟩)

/-- Output array accepted by the adapter: one dimension, an even number of
elements and, unless empty, the ascending zero-based range
`[0 : length-1]` that the source assumes. -/
def ValidMatchList (a : svOpenArray) : Prop :=
  a.dimensions = 1 ∧ a.elems.length % 2 = 0 ∧
    (a.elems ≠ [] → a.left = 0 ∧ a.right = (a.elems.length : Int) - 1)

/-- The checks `svlib_dpi_imported_regexRun` makes on its output array: one
dimension, an even number of elements and, unless empty, left bound 0. -/
def PassesValidation (a : svOpenArray) : Prop :=
  a.dimensions = 1 ∧ a.elems.length % 2 = 0 ∧ (a.elems ≠ [] → a.left = 0)

/-- Ascending zero-based layout of `n` elements: index range `[0 : n-1]`. -/
def AscendingLayout (a : svOpenArray) (n : Nat) : Prop :=
  a.left = 0 ∧ a.right = (n : Int) - 1 ∧ a.elems.length = n

/-- The pair the copy loop stores for a group: `(-1, -1)` when the engine
reports it unmatched, else its offsets moved by `startPos`. -/
def groupOffsets (startPos : Int) (m : regmatch_t) : Int × Int :=
  if m.rm_so < 0 then (-1, -1) else (m.rm_so + startPos, m.rm_eo + startPos)

/-- What the adapter does once the output array has passed the checks, with
`numMatches = length / 2`. -/
def regexRunChecked (R : RegexCodes) (eng : RegexEngine) (re str : String)
    (options startPos : Int) (matchList : svOpenArray) : Except Fault RegexRunResult :=
  let numMatches := matchList.elems.length / 2
  let cflags := regexCflags R options
  let c := eng.regcomp re cflags
  if c.1 ≠ 0 then
    .ok ⟨c.1, 0, matchList, [.regcomp re cflags, .regfree]⟩
  else
    let x := eng.regexec c.2 str startPos numMatches
    let calls := [.regcomp re cflags, .regexec startPos numMatches, .regfree]
    if x.1 = 0 then
      match copyMatches startPos x.2 (min numMatches (c.2.re_nsub + 1)) 0 matchList with
      | .error e => .error e
      | .ok a => .ok ⟨x.1, (c.2.re_nsub + 1 : Nat), a, calls⟩
    else if x.1 = R.REG_NOMATCH then
      .ok ⟨0, 0, matchList, calls⟩
    else
      .ok ⟨x.1, (c.2.re_nsub + 1 : Nat), matchList, calls⟩

/-- An engine that compiles every pattern (no groups) and never matches. -/
def neverMatches : RegexEngine :=
  ⟨fun _ _ => (0, ⟨0, []⟩), fun _ _ _ _ => (1, fun _ => ⟨-1, -1⟩)⟩

/-- An engine that compiles every pattern as having one group and matches
the three characters at the scan start, the group being unmatched. -/
def matchesThree : RegexEngine :=
  ⟨fun _ _ => (0, ⟨1, []⟩), fun _ _ _ _ => (0, fun i => if i = 0 then ⟨0, 3⟩ else ⟨-1, -1⟩)⟩

/-- An engine that rejects every pattern with code 7. -/
def rejectsAll : RegexEngine :=
  ⟨fun _ _ => (7, ⟨0, []⟩), fun _ _ _ _ => (1, fun _ => ⟨-1, -1⟩)⟩

/-- An engine that compiles every pattern and whose execution fails with
code 12. -/
def failsToRun : RegexEngine :=
  ⟨fun _ _ => (0, ⟨0, []⟩), fun _ _ _ _ => (12, fun _ => ⟨-1, -1⟩)⟩

/-- A four-element output array with range `[0:3]`. -/
def fourSlots : svOpenArray := ⟨1, 0, 3, [9, 9, 9, 9]⟩

/-- A two-element output array declared with the descending range `[0:-1]`. -/
def descendingPair : svOpenArray := ⟨1, 0, -1, [5, 6]⟩

/-- A two-element output array declared with the range `[1:2]`. -/
def oneBasedPair : svOpenArray := ⟨1, 1, 2, [5, 6]⟩

/-- A three-element output array with range `[0:2]`. -/
def threeSlots : svOpenArray := ⟨1, 0, 2, [9, 9, 9]⟩

/-! ## Time formatting (`svlib_dpi_imported_timeFormat`) -/

/-- The string literal `"timeFormat result exceeds maximum buffer length "
STRINGIFY(SVLIB_STRING_BUFFER_LONGEST_PATHNAME)`; the macro expands to
`(8192)` before it is turned into a string. -/
def timeFormatTooLong : String := "timeFormat result exceeds maximum buffer length (8192)"

/-- What `svlib_dpi_imported_timeFormat` produces: the returned status, the
text `*formatted` points to, the scratch buffer statics afterwards and the
number of calls of `strftime` made. -/
structure TimeFormatResult where
  status : Int
  formatted : Option String
  buffer : StringBuffer
  attempts : Nat

/-- The `while (1)` loop of `svlib_dpi_imported_timeFormat`, entered with the
value of `bSize` and the number of attempts made so far; the first argument
bounds the number of iterations. `strftime maxsize` is the call
`strftime(buf, maxsize, format, &timeParts)`: its return value and the text
it leaves in the buffer. -/
def timeFormatLoop (E : ErrnoCodes) (malloc : Nat → Option Nat) (strftime : Nat → Nat × String) :
    Nat → StringBuffer → Nat → Nat → Except Fault TimeFormatResult
  | 0, _, _, _ => .error .outOfFuel
  | fuel + 1, st, bSize, attempts =>
    -- buf = getLibStringBuffer(bSize); bSize = getLibStringBufferSize()
    let st1 := (getLibStringBuffer malloc st bSize).2
    let bSize1 := getLibStringBufferSize st1
    let r := strftime bSize1
    if r.1 ≠ 0 then
      -- *formatted = buf; return 0
      .ok ⟨0, some r.2, st1, attempts + 1⟩
    else if SVLIB_STRING_BUFFER_LONGEST_PATHNAME ≤ bSize1 then
      .ok ⟨E.ERANGE, some timeFormatTooLong, st1, attempts + 1⟩
    else
      -- bSize *= 2
      timeFormatLoop E malloc strftime fuel st1 (bSize1 * 2 % 18446744073709551616)
        (attempts + 1)

/-- Embedding of `svlib_dpi_imported_timeFormat(epochSeconds, format,
&formatted)`. The formatter of the C library is the parameter `strftime`
(broken-down time of `epochSeconds` included); `formatted` is the value the
caller's variable holds on entry. The loop of the source has no bound of its
own, so the number of iterations allowed is the first argument. -/
def svlib_dpi_imported_timeFormat (E : ErrnoCodes) (malloc : Nat → Option Nat)
    (strftime : Int → String → Nat → Nat × String) (fuel : Nat) (st : StringBuffer)
    (epochSeconds : Int) (format : String) (formatted : Option String) :
    Except Fault TimeFormatResult :=
  -- if (strlen(format)==0) *formatted = "";
  let formatted1 := if format.length = 0 then some "" else formatted
  match timeFormatLoop E malloc (strftime epochSeconds format) fuel st
      SVLIB_STRING_BUFFER_START_SIZE 0 with
  | .error e => .error e
  | .ok r =>
    -- every return of the loop has assigned *formatted
    .ok ⟨r.status, (r.formatted.orElse fun _ => formatted1), r.buffer, r.attempts⟩

/-! ## Regular-expression error text (`svlib_dpi_imported_regexErrorString`) -/

/-- What `svlib_dpi_imported_regexErrorString` produces: the returned
pointer (the scratch buffer, or `NULL`), the scratch buffer statics
afterwards and the number of calls of `regerror` made. -/
structure RegexErrorStringResult where
  ret : Option Nat
  buffer : StringBuffer
  attempts : Nat

/-- The `do ... while (actSize > bSize)` loop of
`svlib_dpi_imported_regexErrorString`, entered with the value of `actSize`;
the first argument bounds the number of iterations. `need` is the value
`regerror` returns: the size of the buffer the whole message requires,
whatever buffer it is given; it is stored in the `uint32_t actSize`. -/
def regexErrorStringLoop (malloc : Nat → Option Nat) (need : Nat) :
    Nat → StringBuffer → Nat → Nat → Except Fault RegexErrorStringResult
  | 0, _, _, _ => .error .outOfFuel
  | fuel + 1, st, actSize, attempts =>
    -- buf = getLibStringBuffer(actSize)
    let g := getLibStringBuffer malloc st actSize
    -- bSize = getLibStringBufferSize(), stored in a uint32_t
    let bSize := getLibStringBufferSize g.2 % 4294967296
    -- actSize = regerror(err, &compiled, buf, bSize)
    let actSize1 := need % 4294967296
    if bSize < actSize1 then
      regexErrorStringLoop malloc need fuel g.2 actSize1 (attempts + 1)
    else
      .ok ⟨g.1, g.2, attempts + 1⟩

/-- Embedding of `svlib_dpi_imported_regexErrorString(err, re)`. The
parameter `regerror code compiled` is the size the engine reports for the
message of `code`, as stored into `uint32_t actSize`. The argument `err` of
the source is overwritten by the result of `regcomp` before it is read. The
loop of the source has no bound of its own, so the number of iterations
allowed is the first argument. -/
def svlib_dpi_imported_regexErrorString (R : RegexCodes) (eng : RegexEngine)
    (regerror : Nat → regex_t → Nat) (malloc : Nat → Option Nat) (fuel : Nat)
    (st : StringBuffer) (_err : Int) (re : String) : Except Fault RegexErrorStringResult :=
  -- err = regcomp(&compiled, re, REG_EXTENDED): the argument is overwritten
  let c := eng.regcomp re R.REG_EXTENDED
  if c.1 = 0 then
    -- buf = NULL
    .ok ⟨none, st, 0⟩
  else
    regexErrorStringLoop malloc (regerror c.1 c.2) fuel st 0 0

/-! ## Further definitions used by the statements -/

/-- The size `getLibStringBuffer(size)` asks `malloc` for, if it asks: the
default size for a request of 0 without a buffer, nothing (0) for a request
of 0 with a buffer, else the requested size. -/
def requestedSize (st : StringBuffer) (size : Nat) : Nat :=
  if size = 0 then
    if st.libStringBuffer = none then SVLIB_STRING_BUFFER_START_SIZE else 0
  else size

/-- States of the scratch buffer statics reachable from the initial state by
calls of `getLibStringBuffer`, each with any request size and any behaviour
of `malloc`. -/
inductive Reachable : StringBuffer → Prop
  | initial : Reachable StringBuffer.initial
  | call (st : StringBuffer) (malloc : Nat → Option Nat) (size : Nat) :
      Reachable st → Reachable (getLibStringBuffer malloc st size).2

/-- An argument vector whose indirections nest `n` levels deep:
`deepVector 0` is one plain argument, `deepVector (n+1)` is `-f` followed by
a pointer to a file holding `deepVector n`. -/
def deepVector : Nat → List Cell
  | 0 => [.str "top.sv"]
  | n + 1 => [.str "-f", .vec (.str "args.f" :: deepVector n)]

/-- The value `(size_t)-1` that a request of `-1` has in the unsigned
parameter of `getLibStringBuffer` (64-bit `size_t`). -/
def sizeOfMinusOne : Nat := 18446744073709551615

/-- An allocator that has no memory left. -/
def mallocFails : Nat → Option Nat := fun _ => none

/-- An allocator that always succeeds, with the block at address 7000. -/
def mallocSucceeds : Nat → Option Nat := fun _ => some 7000

/-- A formatter whose result needs 300 bytes: it reports 0 for any smaller
buffer, else 299 characters written. -/
def strftimeNeeds300 (maxsize : Nat) : Nat × String :=
  if maxsize < 300 then (0, "") else (299, "formatted text")

/-- The formatter on an empty format: no byte to write, return value 0. -/
def strftimeEmptyFormat : Int → String → Nat → Nat × String := fun _ _ _ => (0, "")

/-- The message size an engine reports: 40 bytes for code 7, 300 bytes for
any other code. -/
def demoRegerror (code : Nat) (_compiled : regex_t) : Nat := if code = 7 then 40 else 300

/-- An engine that rejects every pattern with code 9. -/
def rejectsWithNine : RegexEngine :=
  ⟨fun _ _ => (9, ⟨0, []⟩), fun _ _ _ _ => (1, fun _ => ⟨-1, -1⟩)⟩

/-! ## Local time (`svlib_dpi_imported_localTime`) -/

/-- Store `timeItems[i] = v` into the caller's array. -/
def storeItem (timeItems : List Int) (i : Nat) (v : Int) : Except Fault (List Int) :=
  if i < timeItems.length then .ok (timeItems.set i v) else .error .badPointer

/-- Bit `k` of the option bitmap, an `int` in two's complement. -/
def optionBit (options : Int) (k : Nat) : Bool := decide ((options / 2 ^ k) % 2 = 1)

/-- What the caller of `svlib_dpi_imported_getVlogInfoNext` and the next
call see of a call, the handle left aside: the returned string and the
statics. -/
def returnedAndState (r : Except Fault NextResult) : Except Fault (Option String × FlatState) :=
  r.map fun x => (x.ret, x.state)

/-- The three compile flags of `regex.h` used by the adapter occupy disjoint
bits. -/
def RegexCodes.DisjointFlags (R : RegexCodes) : Prop :=
  R.REG_EXTENDED &&& R.REG_ICASE = 0 ∧ R.REG_EXTENDED &&& R.REG_NEWLINE = 0 ∧
    R.REG_ICASE &&& R.REG_NEWLINE = 0

/-! ## Theorems -/

theorem stackWork_congr (s1 s2 : List (Option (List Cell))) :
    ∀ n, (∀ i, i < n → s1[i]? = s2[i]?) → stackWork s1 n = stackWork s2 n := by
  intro n
  induction n with
  | zero => intro _; rfl
  | succ n ih =>
    intro h
    simp only [stackWork]
    rw [h n (Nat.lt_succ_self n), ih (fun i hi => h i (Nat.lt_succ_of_lt hi))]

theorem pendingArgs_congr (s1 s2 : List (Option (List Cell))) :
    ∀ n, (∀ i, i < n → s1[i]? = s2[i]?) → pendingArgs s1 n = pendingArgs s2 n := by
  intro n
  induction n with
  | zero => intro _; rfl
  | succ n ih =>
    intro h
    simp only [pendingArgs]
    rw [h n (Nat.lt_succ_self n), ih (fun i hi => h i (Nat.lt_succ_of_lt hi))]

theorem flattenVec_arg (s : String) (rest : List Cell) (h : isIndirection s = false) :
    flattenVec (.str s :: rest) = s :: flattenVec rest := by
  simp [flattenVec, h]

theorem flattenVec_file (s : String) (label : Cell) (body rest : List Cell)
    (h : isIndirection s = true) :
    flattenVec (.str s :: .vec (label :: body) :: rest) = flattenVec body ++ flattenVec rest := by
  simp [flattenVec, flattenAfterFlag, flattenTarget, flattenBody, h]

theorem getElem?_set_other (stack : List (Option (List Cell))) (i j : Nat)
    (x : Option (List Cell)) (h : i ≠ j) : (stack.set i x)[j]? = stack[j]? := by
  simp [List.getElem?_set, h]

theorem getElem?_set_same (stack : List (Option (List Cell))) (i : Nat)
    (x : Option (List Cell)) (h : i < stack.length) : (stack.set i x)[i]? = some x := by
  simp [List.getElem?_set, h]

theorem loop_spec (h : Option (List Cell)) :
    ∀ fuel stack ptr, StackInv stack ptr → stackWork stack (ptr + 1) < fuel →
      (pendingArgs stack (ptr + 1) = [] ∧
        getVlogInfoNextLoop fuel stack ptr h = .ok ⟨none, ⟨none, 0⟩, none⟩) ∨
      (∃ s stack2 ptr2, pendingArgs stack (ptr + 1) = s :: pendingArgs stack2 (ptr2 + 1) ∧
        getVlogInfoNextLoop fuel stack ptr h = .ok ⟨some s, ⟨some stack2, ptr2⟩, h⟩ ∧
        StackInv stack2 ptr2) := by
  intro fuel
  induction fuel with
  | zero => intro stack ptr _ hw; exact absurd hw (Nat.not_lt_zero _)
  | succ fuel ih =>
    intro stack ptr inv hwork
    obtain ⟨hlen, hptr, hslots⟩ := inv
    obtain ⟨f, hf, hwf⟩ := hslots ptr (le_refl ptr)
    generalize hd : 31 - ptr = d at hwf
    cases hwf with
    | nil =>
      cases ptr with
      | zero =>
        left
        simp [pendingArgs, slotArgs, hf, flattenVec, getVlogInfoNextLoop]
      | succ k =>
        have inv2 : StackInv stack k :=
          ⟨hlen, Nat.lt_of_succ_lt hptr, fun i hi => by
            obtain ⟨g, hg, hgw⟩ := hslots i (Nat.le_succ_of_le hi)
            exact ⟨g, hg, hgw⟩⟩
        have hw2 : stackWork stack (k + 1) < fuel := by
          have : stackWork stack (k + 1 + 1) = slotWork stack[k + 1]? + stackWork stack (k + 1) := rfl
          rw [this, hf] at hwork
          simp only [slotWork, sizeVec] at hwork
          omega
        have hp : pendingArgs stack (k + 1 + 1) = pendingArgs stack (k + 1) := by
          have : pendingArgs stack (k + 1 + 1) = slotArgs stack[k + 1]? ++ pendingArgs stack (k + 1) := rfl
          rw [this, hf]
          simp [slotArgs, flattenVec]
        have hl : getVlogInfoNextLoop (fuel + 1) stack (k + 1) h
            = getVlogInfoNextLoop fuel stack k h := by
          simp [getVlogInfoNextLoop, hf]
        rw [hp, hl]
        exact ih stack k inv2 hw2
    | arg _ s rest hs hrest =>
      right
      refine ⟨s, stack.set ptr (some rest), ptr, ?_, ?_, ?_⟩
      · have h1 : pendingArgs stack (ptr + 1) = slotArgs stack[ptr]? ++ pendingArgs stack ptr := rfl
        have h2 : pendingArgs (stack.set ptr (some rest)) (ptr + 1)
            = slotArgs (stack.set ptr (some rest))[ptr]? ++ pendingArgs (stack.set ptr (some rest)) ptr := rfl
        rw [h1, h2, hf, getElem?_set_same stack ptr _ (by rw [hlen]; exact hptr),
          pendingArgs_congr (stack.set ptr (some rest)) stack ptr
            (fun i hi => getElem?_set_other stack ptr i _ (by omega))]
        simp [slotArgs, flattenVec_arg s rest hs]
      · simp [getVlogInfoNextLoop, hf, hs]
      · refine ⟨by simp [hlen], hptr, fun i hi => ?_⟩
        by_cases hip : i = ptr
        · subst hip
          exact ⟨rest, getElem?_set_same stack i _ (by rw [hlen]; exact hptr), by rw [hd]; exact hrest⟩
        · obtain ⟨g, hg, hgw⟩ := hslots i hi
          exact ⟨g, by rw [getElem?_set_other stack ptr i _ (fun e => hip e.symm)]; exact hg, hgw⟩
    | file d2 s label body rest hs hbody hrest =>
      have hp1 : ptr + 1 < 32 := by omega
      have hp1s : ¬ (ARGV_STACK_PTR_SIZE ≤ ptr + 1) := by simp [ARGV_STACK_PTR_SIZE]; omega
      have hp1t : ptr + 1 < ARGV_STACK_PTR_SIZE := by simp [ARGV_STACK_PTR_SIZE]; omega
      let stack4 := (((stack.set ptr (some (.vec (label :: body) :: rest))).set (ptr + 1)
        (some (label :: body))).set ptr (some rest)).set (ptr + 1) (some body)
      have hl : getVlogInfoNextLoop (fuel + 1) stack ptr h
          = getVlogInfoNextLoop fuel stack4 (ptr + 1) h := by
        simp [getVlogInfoNextLoop, hf, hs, hp1s, hp1t, stack4]
      have hlen4 : stack4.length = ARGV_STACK_PTR_SIZE := by simp [stack4, hlen]
      have htop : stack4[ptr + 1]? = some (some body) := by
        simp only [stack4]
        rw [getElem?_set_same]
        simp [hlen]; exact hp1t
      have hmid : stack4[ptr]? = some (some rest) := by
        simp only [stack4]
        rw [getElem?_set_other _ (ptr + 1) ptr _ (by omega), getElem?_set_same]
        simp [hlen]; exact hptr
      have hlow : ∀ i, i < ptr → stack4[i]? = stack[i]? := by
        intro i hi
        simp only [stack4]
        rw [getElem?_set_other _ (ptr + 1) i _ (by omega), getElem?_set_other _ ptr i _ (by omega),
          getElem?_set_other _ (ptr + 1) i _ (by omega), getElem?_set_other _ ptr i _ (by omega)]
      have inv4 : StackInv stack4 (ptr + 1) := by
        refine ⟨hlen4, hp1t, fun i hi => ?_⟩
        by_cases h1 : i = ptr + 1
        · subst h1
          exact ⟨body, htop, by
            have : 31 - (ptr + 1) = d2 := by omega
            rw [this]; exact hbody⟩
        · by_cases h2 : i = ptr
          · subst h2
            exact ⟨rest, hmid, by rw [hd]; exact hrest⟩
          · obtain ⟨g, hg, hgw⟩ := hslots i (by omega)
            exact ⟨g, by rw [hlow i (by omega)]; exact hg, hgw⟩
      have hw4 : stackWork stack4 (ptr + 1 + 1) < fuel := by
        have e1 : stackWork stack4 (ptr + 1 + 1)
            = slotWork stack4[ptr + 1]? + (slotWork stack4[ptr]? + stackWork stack4 ptr) := rfl
        have e2 : stackWork stack (ptr + 1) = slotWork stack[ptr]? + stackWork stack ptr := rfl
        rw [e2, hf] at hwork
        rw [e1, htop, hmid, stackWork_congr stack4 stack ptr hlow]
        simp only [slotWork, sizeVec, sizeCell] at hwork ⊢
        omega
      have hp4 : pendingArgs stack (ptr + 1) = pendingArgs stack4 (ptr + 1 + 1) := by
        have e1 : pendingArgs stack4 (ptr + 1 + 1)
            = slotArgs stack4[ptr + 1]? ++ (slotArgs stack4[ptr]? ++ pendingArgs stack4 ptr) := rfl
        have e2 : pendingArgs stack (ptr + 1) = slotArgs stack[ptr]? ++ pendingArgs stack ptr := rfl
        rw [e2, hf, e1, htop, hmid, pendingArgs_congr stack4 stack ptr hlow]
        simp [slotArgs, flattenVec_file s label body rest hs]
      rw [hp4, hl]
      exact ih stack4 (ptr + 1) inv4 hw4


theorem calls_core :
    ∀ (out : List String) (st : FlatState) (h : Option (List Cell))
      (stack : List (Option (List Cell))) (ptr : Nat),
      svlib_dpi_imported_getVlogInfoNext st h
        = getVlogInfoNextLoop (stackWork stack (ptr + 1) + 1) stack ptr h →
      StackInv stack ptr → pendingArgs stack (ptr + 1) = out →
      getVlogInfoCalls (out.length + 1) st h
        = .ok (out.map some ++ [none], FlatState.initial, none) := by
  intro out
  induction out with
  | nil =>
    intro st h stack ptr hnext inv hp
    rcases loop_spec h _ stack ptr inv (Nat.lt_succ_self _) with ⟨_, hl⟩ | ⟨s, _, _, hs, _, _⟩
    · simp [getVlogInfoCalls, hnext, hl, FlatState.initial]
    · rw [hp] at hs; exact absurd hs (by simp)
  | cons a out ih =>
    intro st h stack ptr hnext inv hp
    rcases loop_spec h _ stack ptr inv (Nat.lt_succ_self _) with ⟨he, _⟩ | ⟨s, stack2, ptr2, hs, hl, inv2⟩
    · rw [hp] at he; exact absurd he (by simp)
    · rw [hp] at hs
      injection hs with h1 h2
      subst h1
      have hrec := ih ⟨some stack2, ptr2⟩ h stack2 ptr2 rfl inv2 h2.symm
      have : getVlogInfoCalls ((a :: out).length + 1) st h
          = match getVlogInfoCalls (out.length + 1) ⟨some stack2, ptr2⟩ h with
            | .error e => .error e
            | .ok (o, st2, h2) => .ok (some a :: o, st2, h2) := by
        simp [getVlogInfoCalls, hnext, hl]
      rw [this, hrec]
      simp

theorem flatten_calls (root : List Cell) (hw : WellFormed 31 root) :
    getVlogInfoCalls ((flattenVec root).length + 1) FlatState.initial (some root)
      = .ok ((flattenVec root).map some ++ [none], FlatState.initial, none) := by
  apply calls_core (flattenVec root) FlatState.initial (some root)
    ((List.replicate ARGV_STACK_PTR_SIZE none).set 0 (some root)) 0 rfl
  · refine ⟨by simp, by simp [ARGV_STACK_PTR_SIZE], fun i hi => ?_⟩
    have : i = 0 := by omega
    subst this
    exact ⟨root, by simp [ARGV_STACK_PTR_SIZE], hw⟩
  · simp [pendingArgs, slotArgs, ARGV_STACK_PTR_SIZE]

theorem wellFormed_plain (d : Nat) :
    ∀ args : List String, (∀ s ∈ args, isIndirection s = false) →
      WellFormed d (args.map Cell.str) ∧ flattenVec (args.map Cell.str) = args := by
  intro args
  induction args with
  | nil => intro _; exact ⟨WellFormed.nil d, by simp [flattenVec]⟩
  | cons a args ih =>
    intro h
    have ha : isIndirection a = false := h a (by simp)
    obtain ⟨hw, hf⟩ := ih (fun s hs => h s (by simp [hs]))
    exact ⟨WellFormed.arg d a _ ha hw, by
      simp only [List.map_cons]
      rw [flattenVec_arg a _ ha, hf]⟩

/-- C1: from the initial state, successive calls of
`svlib_dpi_imported_getVlogInfoNext` on a well-formed root vector nested
less than 32 deep return the inline expansion of the vector (each
indirection pair replaced by its target without the label, left to right)
and then `NULL`; a vector without indirections comes back unchanged, and
`[A, -f, ptr [label, P, Q], B]` yields `A, P, Q, B`. -/
theorem C1_flattener_returns_inline_expansion :
    (∀ root : List Cell, WellFormed 31 root →
      getVlogInfoCalls ((flattenVec root).length + 1) FlatState.initial (some root)
        = .ok ((flattenVec root).map some ++ [none], FlatState.initial, none)) ∧
    (∀ args : List String, (∀ s ∈ args, isIndirection s = false) →
      getVlogInfoCalls (args.length + 1) FlatState.initial (some (args.map Cell.str))
        = .ok (args.map some ++ [none], FlatState.initial, none)) ∧
    (∀ (flag A B P Q : String) (label : Cell), isIndirection flag = true →
      isIndirection A = false → isIndirection B = false →
      isIndirection P = false → isIndirection Q = false →
      getVlogInfoCalls 5 FlatState.initial
          (some [.str A, .str flag, .vec [label, .str P, .str Q], .str B])
        = .ok ([some A, some P, some Q, some B, none], FlatState.initial, none)) := by
  refine ⟨flatten_calls, ?_, ?_⟩
  · intro args h
    obtain ⟨hw, hf⟩ := wellFormed_plain 31 args h
    have := flatten_calls _ hw
    rw [hf] at this
    exact this
  · intro flag A B P Q label hflag hA hB hP hQ
    have hw : WellFormed 31 [.str A, .str flag, .vec [label, .str P, .str Q], .str B] :=
      WellFormed.arg 31 A _ hA
        (WellFormed.file 30 flag label _ _ hflag
          (WellFormed.arg 30 P _ hP (WellFormed.arg 30 Q _ hQ (WellFormed.nil 30)))
          (WellFormed.arg 31 B _ hB (WellFormed.nil 31)))
    have hf : flattenVec [.str A, .str flag, .vec [label, .str P, .str Q], .str B]
        = [A, P, Q, B] := by
      rw [flattenVec_arg A _ hA, flattenVec_file flag label _ _ hflag, flattenVec_arg P _ hP,
        flattenVec_arg Q _ hQ, flattenVec_arg B _ hB]
      simp [flattenVec]
    have := flatten_calls _ hw
    rw [hf] at this
    exact this

theorem C1_flattener_witness :
    WellFormed 31 [.str "top.sv", .str "-F", .vec [.str "files.f", .str "a.sv",
        .str "-f", .vec [.str "more.f", .str "b.sv"]], .str "+define+X"] ∧
    getVlogInfoCalls 5 FlatState.initial
        (some [.str "top.sv", .str "-F", .vec [.str "files.f", .str "a.sv",
          .str "-f", .vec [.str "more.f", .str "b.sv"]], .str "+define+X"])
      = .ok ([some "top.sv", some "a.sv", some "b.sv", some "+define+X", none],
          FlatState.initial, none) :=
  have hw : WellFormed 31 [.str "top.sv", .str "-F", .vec [.str "files.f", .str "a.sv",
        .str "-f", .vec [.str "more.f", .str "b.sv"]], .str "+define+X"] :=
    WellFormed.arg 31 _ _ (by decide)
      (WellFormed.file 30 _ _ _ _ (by decide)
        (WellFormed.arg 30 _ _ (by decide)
          (WellFormed.file 29 _ _ _ _ (by decide)
            (WellFormed.arg 29 _ _ (by decide) (WellFormed.nil 29))
            (WellFormed.nil 30)))
        (WellFormed.arg 31 _ _ (by decide) (WellFormed.nil 31)))
  ⟨hw, C1_flattener_returns_inline_expansion.1 _ hw⟩
theorem WellFormed.deeper {d : Nat} {v : List Cell} (h : WellFormed d v) :
    WellFormed (d + 1) v := by
  induction h with
  | nil d => exact WellFormed.nil (d + 1)
  | arg d s rest hs _ ih => exact WellFormed.arg (d + 1) s rest hs ih
  | file d s label body rest hs _ _ ihb ihr =>
    exact WellFormed.file (d + 1) s label body rest hs ihb ihr

theorem slotWork_pos (x : Option (Option (List Cell))) : 0 < slotWork x := by
  unfold slotWork
  split <;> omega

theorem slotWork_set_le (stack : List (Option (List Cell))) (i : Nat) (f : List Cell) :
    slotWork (stack.set i (some f))[i]? ≤ sizeVec f + 1 := by
  rw [List.getElem?_set]
  simp only [if_true]
  split
  · simp [slotWork]
  · simp [slotWork]

/-- The loop budget that `svlib_dpi_imported_getVlogInfoNext` passes is never
exhausted, whatever the stack holds: each iteration that does not return
consumes part of `stackWork`. -/
theorem getVlogInfoNextLoop_budget (h : Option (List Cell)) :
    ∀ fuel stack ptr, stackWork stack (ptr + 1) < fuel →
      getVlogInfoNextLoop fuel stack ptr h ≠ .error .outOfFuel := by
  intro fuel
  induction fuel with
  | zero => intro stack ptr hw; exact absurd hw (Nat.not_lt_zero _)
  | succ fuel ih =>
    intro stack ptr hw
    have hsw : stackWork stack (ptr + 1) = slotWork stack[ptr]? + stackWork stack ptr := rfl
    unfold getVlogInfoNextLoop
    split
    · simp
    · simp
    · rename_i hs
      split
      · simp
      · rename_i hp
        have hp1 : ptr - 1 + 1 = ptr := by omega
        apply ih
        rw [hp1]
        rw [hsw, hs] at hw
        simp only [slotWork, sizeVec] at hw
        omega
    · simp
    · rename_i s rest hs
      split
      · split
        · simp
        · split
          · simp
          · simp
          · rename_i v rest2
            split
            · simp
            · rename_i label body
              simp only
              split
              · apply ih
                have hlen : ptr < stack.length := by
                  by_contra hc
                  rw [List.getElem?_eq_none (by omega)] at hs
                  simp at hs
                have e1 : ∀ (st : List (Option (List Cell))),
                    stackWork st (ptr + 1 + 1)
                      = slotWork st[ptr + 1]? + (slotWork st[ptr]? + stackWork st ptr) :=
                  fun _ => rfl
                rw [e1]
                have htop := slotWork_set_le
                  (((stack.set ptr (some (Cell.vec (label :: body) :: rest2))).set (ptr + 1)
                    (some (label :: body))).set ptr (some rest2)) (ptr + 1) body
                have hmid : ((((stack.set ptr (some (Cell.vec (label :: body) :: rest2))).set
                    (ptr + 1) (some (label :: body))).set ptr (some rest2)).set (ptr + 1)
                    (some body))[ptr]? = some (some rest2) := by
                  rw [getElem?_set_other _ (ptr + 1) ptr _ (by omega), getElem?_set_same]
                  simpa using hlen
                have hlow : stackWork ((((stack.set ptr
                    (some (Cell.vec (label :: body) :: rest2))).set
                    (ptr + 1) (some (label :: body))).set ptr (some rest2)).set (ptr + 1)
                    (some body)) ptr = stackWork stack ptr := by
                  apply stackWork_congr
                  intro i hi
                  rw [getElem?_set_other _ (ptr + 1) i _ (by omega),
                    getElem?_set_other _ ptr i _ (by omega),
                    getElem?_set_other _ (ptr + 1) i _ (by omega),
                    getElem?_set_other _ ptr i _ (by omega)]
                rw [hmid, hlow]
                rw [hsw, hs] at hw
                generalize slotWork ((((stack.set ptr
                    (some (Cell.vec (label :: body) :: rest2))).set
                    (ptr + 1) (some (label :: body))).set ptr (some rest2)).set (ptr + 1)
                    (some body))[ptr + 1]? = top at htop ⊢
                simp only [slotWork, sizeVec, sizeCell] at hw ⊢
                omega
              · simp
      · simp

/-- A call of `svlib_dpi_imported_getVlogInfoNext` never ends for lack of
loop budget: the model returns exactly when the C loop does. -/
theorem getVlogInfoNext_budget_suffices (st : FlatState) (h : Option (List Cell)) :
    svlib_dpi_imported_getVlogInfoNext st h ≠ .error .outOfFuel :=
  getVlogInfoNextLoop_budget h _ _ _ (Nat.lt_succ_self _)

/-! ### Lazy collection iterator -/

theorem saBufNext_element (E : ErrnoCodes) (heap : Heap) (p : Nat)
    (arr : List (Option String)) (k : Nat) (ff : Option FreeFunc)
    (rel : List (FreeFunc × Nat)) (e : String)
    (hv : ValidHandle heap p arr k ff rel) (he : arr[k]? = some (some e)) :
    ∃ heap1, svlib_dpi_imported_saBufNext E heap (some p) = .ok ⟨0, some p, some e, heap1⟩ ∧
      ValidHandle heap1 p arr (k + 1) ff rel := by
  obtain ⟨b, hb, hs, hsc, hff, hrel⟩ := hv
  refine ⟨heap.setBuf p (some (b.withScan (some ⟨arr, k + 1⟩))), ?_, ?_⟩
  · simp [svlib_dpi_imported_saBufNext, hb, hs, hsc, he]
  · exact ⟨b.withScan (some ⟨arr, k + 1⟩), by simp [Heap.setBuf], hs, rfl, hff, hrel⟩

theorem glob_freeFunc_live (heap : Heap) (a : Nat) (b : saBuf) (hb : heap.bufs a = some b) :
    ∃ heap1, glob_freeFunc heap (some a) = .ok heap1 ∧
      heap1.released = heap.released ++ [(FreeFunc.glob_freeFunc, a)] ∧
      heap1.bufs a = none := by
  refine ⟨_, by simp only [glob_freeFunc, hb]; rfl, rfl, ?_⟩
  cases hd : b.pAppData <;> simp [Heap.setBuf, Heap.setAppData]

theorem saBufNext_sentinel (E : ErrnoCodes) (heap : Heap) (p : Nat)
    (arr : List (Option String)) (k : Nat) (ff : Option FreeFunc)
    (rel : List (FreeFunc × Nat))
    (hv : ValidHandle heap p arr k ff rel) (he : arr[k]? = some none) :
    ∃ heap1, svlib_dpi_imported_saBufNext E heap (some p) = .ok ⟨0, none, none, heap1⟩ ∧
      heap1.released = rel ++ releaseCalls ff p := by
  obtain ⟨b, hb, hs, hsc, hff, hrel⟩ := hv
  cases ff with
  | none =>
    exact ⟨heap.setBuf p (some (b.withScan (some ⟨arr, k + 1⟩))),
      by simp [svlib_dpi_imported_saBufNext, hb, hs, hsc, he, hff],
      by simp [Heap.setBuf, hrel, releaseCalls]⟩
  | some f =>
    cases f
    obtain ⟨heap2, hfree, hlog, _⟩ := glob_freeFunc_live
      (heap.setBuf p (some (b.withScan (some ⟨arr, k + 1⟩)))) p
      (b.withScan (some ⟨arr, k + 1⟩)) (by simp [Heap.setBuf])
    refine ⟨heap2, ?_, ?_⟩
    · simp [svlib_dpi_imported_saBufNext, hb, hs, hsc, he, hff, FreeFunc.call, hfree]
    · rw [hlog]; simp [Heap.setBuf, hrel, releaseCalls]

theorem saBufNextCalls_append (E : ErrnoCodes) :
    ∀ (m n : Nat) (heap heap1 heap2 : Heap) (h h1 h2 : Option Nat)
      (o1 o2 : List (Int × Option String)),
      saBufNextCalls E m heap h = .ok (o1, h1, heap1) →
      saBufNextCalls E n heap1 h1 = .ok (o2, h2, heap2) →
      saBufNextCalls E (m + n) heap h = .ok (o1 ++ o2, h2, heap2) := by
  intro m
  induction m with
  | zero =>
    intro n heap heap1 heap2 h h1 h2 o1 o2 e1 e2
    simp only [saBufNextCalls, Except.ok.injEq, Prod.mk.injEq] at e1
    obtain ⟨rfl, rfl, rfl⟩ := e1
    simpa using e2
  | succ m ih =>
    intro n heap heap1 heap2 h h1 h2 o1 o2 e1 e2
    have hmn : m + 1 + n = (m + n) + 1 := by omega
    rw [hmn]
    simp only [saBufNextCalls] at e1 ⊢
    cases hstep : svlib_dpi_imported_saBufNext E heap h with
    | error e => rw [hstep] at e1; simp at e1
    | ok r =>
      rw [hstep] at e1
      simp only at e1 ⊢
      cases hrest : saBufNextCalls E m r.heap r.h with
      | error e => rw [hrest] at e1; simp at e1
      | ok t =>
        obtain ⟨o, h3, heap3⟩ := t
        rw [hrest] at e1
        simp only [Except.ok.injEq, Prod.mk.injEq] at e1
        obtain ⟨rfl, rfl, rfl⟩ := e1
        rw [ih n r.heap _ heap2 r.h _ h2 o o2 hrest e2]
        simp

theorem saBufNextCalls_elements (E : ErrnoCodes) (p : Nat) (arr : List (Option String))
    (ff : Option FreeFunc) (rel : List (FreeFunc × Nat)) :
    ∀ (es : List String) (k : Nat) (heap : Heap), ValidHandle heap p arr k ff rel →
      (∀ i, i < es.length → arr[k + i]? = (es[i]?).map some) →
      ∃ heap1, saBufNextCalls E es.length heap (some p)
          = .ok (es.map (fun e => ((0 : Int), some e)), some p, heap1) ∧
        ValidHandle heap1 p arr (k + es.length) ff rel := by
  intro es
  induction es with
  | nil => intro k heap hv _; exact ⟨heap, rfl, hv⟩
  | cons e es ih =>
    intro k heap hv harr
    have h0 : arr[k]? = some (some e) := by simpa using harr 0 (by simp)
    obtain ⟨heap1, hstep, hv1⟩ := saBufNext_element E heap p arr k ff rel e hv h0
    obtain ⟨heap2, hrest, hv2⟩ := ih (k + 1) heap1 hv1 (fun i hi => by
      have := harr (i + 1) (by simp; omega)
      simpa [Nat.add_assoc, Nat.add_comm 1 i] using this)
    refine ⟨heap2, ?_, by simpa [Nat.add_assoc, Nat.add_comm 1] using hv2⟩
    simp [saBufNextCalls, hstep, hrest]

theorem saBufNextCalls_null (E : ErrnoCodes) (heap : Heap) :
    ∀ j, saBufNextCalls E j heap none
      = .ok (List.replicate j ((0 : Int), none), none, heap) := by
  intro j
  induction j with
  | zero => rfl
  | succ j ih => simp [saBufNextCalls, svlib_dpi_imported_saBufNext, ih, List.replicate_succ]

theorem sentinel_array_get (es : List String) (k : Nat) (i : Nat) (hi : i < (es.take k).length) :
    (es.map some ++ [none])[0 + i]? = ((es.take k)[i]?).map some := by
  have hik : i < k := by simp at hi; omega
  have hil : i < es.length := by simp at hi; omega
  simp [List.getElem?_append, hil, List.getElem?_take, hik]

/-- C2: a valid handle on the strings `e1..en` followed by a null sentinel
serves `e1..en` in order with status 0 and an unchanged handle; call `n+1`
returns a null string with status 0, nulls the handle and calls the release
function once; every later call on the null handle returns a null string
with status 0 and leaves the heap as it is. -/
theorem C2_iterator_serves_elements_then_releases (E : ErrnoCodes) (heap : Heap) (p : Nat)
    (b : saBuf) (es : List String) (hb : heap.bufs p = some b)
    (hsane : b.sanity_check = some p) (hscan : b.scan = some ⟨es.map some ++ [none], 0⟩) :
    (∀ k, k ≤ es.length → ∃ heap1,
      saBufNextCalls E k heap (some p)
        = .ok ((es.take k).map (fun e => ((0 : Int), some e)), some p, heap1) ∧
      heap1.released = heap.released) ∧
    (∃ heap2,
      saBufNextCalls E (es.length + 1) heap (some p)
        = .ok (es.map (fun e => ((0 : Int), some e)) ++ [(0, none)], none, heap2) ∧
      heap2.released
        = heap.released ++ releaseCalls b.freeFunc p ∧
      ∀ j, saBufNextCalls E (es.length + 1 + j) heap (some p)
        = .ok (es.map (fun e => ((0 : Int), some e)) ++ [(0, none)]
            ++ List.replicate j ((0 : Int), none), none, heap2)) := by
  have hv : ValidHandle heap p (es.map some ++ [none]) 0 b.freeFunc heap.released :=
    ⟨b, hb, hsane, hscan, rfl, rfl⟩
  constructor
  · intro k hk
    obtain ⟨heap1, hrun, hv1⟩ := saBufNextCalls_elements E p _ b.freeFunc heap.released
      (es.take k) 0 heap hv (fun i hi => sentinel_array_get es k i hi)
    obtain ⟨b1, _, _, _, _, hrel⟩ := hv1
    have hlen : (es.take k).length = k := by simp [hk]
    rw [hlen] at hrun
    exact ⟨heap1, hrun, hrel⟩
  · obtain ⟨heap1, hrun, hv1⟩ := saBufNextCalls_elements E p _ b.freeFunc heap.released
      es 0 heap hv (fun i hi => by
        have := sentinel_array_get es es.length i (by simpa using hi)
        simpa using this)
    have hend : (es.map some ++ [none])[0 + es.length]? = some none := by simp
    obtain ⟨heap2, hlast, hrel⟩ := saBufNext_sentinel E heap1 p _ _ b.freeFunc heap.released hv1 hend
    have hone : saBufNextCalls E 1 heap1 (some p) = .ok ([((0 : Int), none)], none, heap2) := by
      simp [saBufNextCalls, hlast]
    have hn1 := saBufNextCalls_append E es.length 1 heap heap1 heap2 (some p) (some p) none _ _
      hrun hone
    refine ⟨heap2, hn1, hrel, fun j => ?_⟩
    exact saBufNextCalls_append E (es.length + 1) j heap heap2 heap2 (some p) none none _ _
      hn1 (saBufNextCalls_null E heap2 j)

theorem C2_iterator_witness :
    ∃ heap2,
      saBufNextCalls glibcErrno 4 demoHeap (some 1000)
        = .ok ([(0, some "a.sv"), (0, some "b.sv"), (0, none), (0, none)], none, heap2) ∧
      heap2.released = [(FreeFunc.glob_freeFunc, 1000)] := by
  obtain ⟨heap2, _, hrel, hlater⟩ :=
    (C2_iterator_serves_elements_then_releases glibcErrno demoHeap 1000
      ⟨some ⟨[some "a.sv", some "b.sv", none], 0⟩, some FreeFunc.glob_freeFunc, some 2000, 0,
        none, some 1000⟩ ["a.sv", "b.sv"] rfl rfl rfl).2
  exact ⟨heap2, hlater 1, hrel⟩

/-- C3: on a non-null handle whose `sanity_check` field is not the handle's
own address, `svlib_dpi_imported_saBufNext` returns a non-zero status (the
code `ENOMEM`), a null string, and leaves the handle and the whole heap
(cursor, release log) as they were. -/
theorem C3_corrupt_handle_is_an_error (E : ErrnoCodes) (hE : E.ENOMEM ≠ 0) (heap : Heap)
    (p : Nat) (b : saBuf) (hb : heap.bufs p = some b) (hbad : b.sanity_check ≠ some p) :
    ∃ r, svlib_dpi_imported_saBufNext E heap (some p) = .ok r ∧
      r.status ≠ 0 ∧ r.status = E.ENOMEM ∧ r.s = none ∧ r.h = some p ∧ r.heap = heap ∧
      r.heap.bufs p = some b ∧ r.heap.released = heap.released :=
  ⟨⟨E.ENOMEM, some p, none, heap⟩, by simp [svlib_dpi_imported_saBufNext, hb, hbad],
    hE, rfl, rfl, rfl, rfl, hb, rfl⟩

theorem C3_corrupt_handle_witness :
    ∃ r, svlib_dpi_imported_saBufNext glibcErrno corruptHeap (some 1000) = .ok r ∧
      r.status ≠ 0 ∧ r.status = 12 ∧ r.s = none ∧ r.h = some 1000 ∧ r.heap = corruptHeap ∧
      r.heap.bufs 1000 = some ⟨some ⟨[some "a.sv", none], 0⟩, some FreeFunc.glob_freeFunc,
        some 2000, 0, none, some 4000⟩ ∧ r.heap.released = corruptHeap.released :=
  C3_corrupt_handle_is_an_error glibcErrno (by decide) corruptHeap 1000
    ⟨some ⟨[some "a.sv", none], 0⟩, some FreeFunc.glob_freeFunc, some 2000, 0, none, some 4000⟩
    rfl (by decide)

/-! ### Glob producer -/

theorem saBufCreate_ok (E : ErrnoCodes) (heap : Heap) (a d : Nat) (ff : Option FreeFunc) :
    saBufCreate E heap (some a) (some d) ff
      = (0, some a, ((heap.setBuf a (some saBuf.fresh)).setAppData d (some none)).setBuf a
          (some ⟨none, ff, some d, 0, none, some a⟩)) := rfl

/-- C9: with handle creation succeeding, `svlib_dpi_imported_globStart`
maps the result of the native `glob` to `ENOMEM` (`GLOB_NOSPACE`), `EACCES`
(`GLOB_ABORTED`), `ENOTSUP` (any other non-zero result but `GLOB_NOMATCH`),
each with a null handle and count 0; `GLOB_NOMATCH` gives status 0, a null
handle and count 0; result 0 gives status 0, the count `gl_pathc` and a
handle that passes the self-check with its cursor at the start of
`gl_pathv`. If handle creation fails it returns `ENOMEM`, a null handle and
count 0. -/
theorem C9_globStart_result_mapping (E : ErrnoCodes) (G : GlobCodes) (hG : G.Distinct)
    (hE : E.ENOMEM ≠ 0) (glob : String → Int × glob_t) (heap : Heap) (pattern : String) :
    (∀ a d : Nat, ∃ r,
      svlib_dpi_imported_globStart E G glob heap (some a) (some d) pattern = .ok r ∧
      ((glob pattern).1 = G.GLOB_NOSPACE → r.status = E.ENOMEM ∧ r.h = none ∧ r.number = 0) ∧
      ((glob pattern).1 = G.GLOB_ABORTED → r.status = E.EACCES ∧ r.h = none ∧ r.number = 0) ∧
      ((glob pattern).1 = G.GLOB_NOMATCH → r.status = 0 ∧ r.h = none ∧ r.number = 0) ∧
      ((glob pattern).1 ≠ 0 → (glob pattern).1 ≠ G.GLOB_NOSPACE →
        (glob pattern).1 ≠ G.GLOB_ABORTED → (glob pattern).1 ≠ G.GLOB_NOMATCH →
        r.status = E.ENOTSUP ∧ r.h = none ∧ r.number = 0) ∧
      ((glob pattern).1 = 0 → r.status = 0 ∧ r.h = some a ∧
        r.number = (glob pattern).2.gl_pathc ∧
        ∃ b, r.heap.bufs a = some b ∧ b.sanity_check = some a ∧
          b.scan = some ⟨(glob pattern).2.gl_pathv, 0⟩)) ∧
    (∀ m1 m2 : Option Nat, m1 = none ∨ m2 = none →
      ∃ r, svlib_dpi_imported_globStart E G glob heap m1 m2 pattern = .ok r ∧
        r.status = E.ENOMEM ∧ r.h = none ∧ r.number = 0) := by
  obtain ⟨h1, h2, h3, h12, h13, h23⟩ := hG
  constructor
  · intro a d
    have hlive : (((heap.setBuf a (some saBuf.fresh)).setAppData d (some none)).setBuf a
        (some ⟨none, some FreeFunc.glob_freeFunc, some d, 0, none, some a⟩)).bufs a
        = some ⟨none, some FreeFunc.glob_freeFunc, some d, 0, none, some a⟩ := by
      simp [Heap.setBuf]
    obtain ⟨heap3, hfree, _, _⟩ := glob_freeFunc_live
      ((((heap.setBuf a (some saBuf.fresh)).setAppData d (some none)).setBuf a
        (some ⟨none, some FreeFunc.glob_freeFunc, some d, 0, none, some a⟩)).setAppData d
          (some (some (glob pattern).2))) a
      ⟨none, some FreeFunc.glob_freeFunc, some d, 0, none, some a⟩ (by simp [Heap.setBuf, Heap.setAppData])
    by_cases c1 : (glob pattern).1 = G.GLOB_NOSPACE
    · refine ⟨⟨E.ENOMEM, none, 0, heap3⟩, ?_, ?_⟩
      · simp [svlib_dpi_imported_globStart, saBufCreate_ok, hlive, c1, hfree]
      · refine ⟨fun _ => ⟨rfl, rfl, rfl⟩, fun c => ?_, fun c => ?_, fun _ c _ _ => ?_, fun c => ?_⟩
        · exact absurd (c1.symm.trans c) h12
        · exact absurd (c1.symm.trans c) h13
        · exact absurd c1 c
        · exact absurd (c1.symm.trans c) h1
    · by_cases c2 : (glob pattern).1 = G.GLOB_ABORTED
      · refine ⟨⟨E.EACCES, none, 0, heap3⟩, ?_, ?_⟩
        · simp [svlib_dpi_imported_globStart, saBufCreate_ok, hlive, c2, h12.symm, hfree]
        · refine ⟨fun c => absurd c c1, fun _ => ⟨rfl, rfl, rfl⟩, fun c => ?_,
            fun _ _ c _ => ?_, fun c => ?_⟩
          · exact absurd (c2.symm.trans c) h23
          · exact absurd c2 c
          · exact absurd (c2.symm.trans c) h2
      · by_cases c3 : (glob pattern).1 = G.GLOB_NOMATCH
        · refine ⟨⟨0, none, 0, heap3⟩, ?_, ?_⟩
          · simp [svlib_dpi_imported_globStart, saBufCreate_ok, hlive, c3, h13.symm, h23.symm, hfree]
          · refine ⟨fun c => absurd c c1, fun c => absurd c c2, fun _ => ⟨rfl, rfl, rfl⟩,
              fun _ _ _ c => absurd c3 c, fun c => ?_⟩
            exact absurd (c3.symm.trans c) h3
        · by_cases c0 : (glob pattern).1 = 0
          · refine ⟨⟨0, some a, (glob pattern).2.gl_pathc,
              ((((heap.setBuf a (some saBuf.fresh)).setAppData d (some none)).setBuf a
                (some ⟨none, some FreeFunc.glob_freeFunc, some d, 0, none, some a⟩)).setAppData d
                  (some (some (glob pattern).2))).setBuf a
                (some (saBuf.withScan ⟨none, some FreeFunc.glob_freeFunc, some d, 0, none, some a⟩
                  (some ⟨(glob pattern).2.gl_pathv, 0⟩)))⟩, ?_, ?_⟩
            · simp only [svlib_dpi_imported_globStart, saBufCreate_ok, hlive]
              simp [c0, h1.symm, h2.symm, h3.symm]
            · refine ⟨fun c => absurd c c1, fun c => absurd c c2, fun c => absurd c c3,
                fun c _ _ _ => absurd c0 c, fun _ => ⟨rfl, rfl, rfl, ?_⟩⟩
              exact ⟨saBuf.withScan ⟨none, some FreeFunc.glob_freeFunc, some d, 0, none, some a⟩
                (some ⟨(glob pattern).2.gl_pathv, 0⟩), by simp [Heap.setBuf], rfl, rfl⟩
          · refine ⟨⟨E.ENOTSUP, none, 0, heap3⟩, ?_, ?_⟩
            · simp [svlib_dpi_imported_globStart, saBufCreate_ok, hlive, c1, c2, c3, c0, hfree]
            · exact ⟨fun c => absurd c c1, fun c => absurd c c2, fun c => absurd c c3,
                fun _ _ _ _ => ⟨rfl, rfl, rfl⟩, fun c => absurd c c0⟩
  · intro m1 m2 hm
    cases m1 with
    | none =>
      exact ⟨⟨E.ENOMEM, none, 0, heap⟩, by simp [svlib_dpi_imported_globStart, saBufCreate, hE],
        rfl, rfl, rfl⟩
    | some a =>
      cases m2 with
      | none =>
        exact ⟨⟨E.ENOMEM, none, 0, _⟩, by
          simp only [svlib_dpi_imported_globStart, saBufCreate]
          simp [hE]
          rfl, rfl, rfl, rfl⟩
      | some d => simp at hm

theorem C9_globStart_witness :
    glibcGlob.Distinct ∧ glibcErrno.ENOMEM ≠ 0 ∧
    ∃ r, svlib_dpi_imported_globStart glibcErrno glibcGlob demoGlob Heap.empty
        (some 1000) (some 2000) "*.sv" = .ok r ∧
      r.status = 0 ∧ r.h = some 1000 ∧ r.number = 2 := by
  have hd : glibcGlob.Distinct := by simp [GlobCodes.Distinct, glibcGlob]
  have he : glibcErrno.ENOMEM ≠ 0 := by decide
  obtain ⟨r, hr, _, _, _, _, h0⟩ :=
    (C9_globStart_result_mapping glibcErrno glibcGlob hd he demoGlob Heap.empty "*.sv").1
      1000 2000
  obtain ⟨hs, hh, hn, _⟩ := h0 (by decide)
  exact ⟨hd, he, r, hr, hs, hh, hn⟩

/-! ### Scratch buffer manager -/

theorem getLibStringBuffer_grow (malloc : Nat → Option Nat) (st : StringBuffer) (size : Nat)
    (buf : Nat) (hpos : 0 < size) (hlt : st.libStringBufferSize < size)
    (hm : malloc size = some buf) :
    getLibStringBuffer malloc st size = (some buf, ⟨some buf, size⟩) := by
  rw [getLibStringBuffer]
  have : ¬ size ≤ 0 := by omega
  simp [this, hlt, hm]

/-- C10: from the initial state (no buffer, capacity 0), with the
allocation succeeding, `getLibStringBuffer(0)` returns a non-null buffer and
afterwards `getLibStringBufferSize()` is the default size 256
(`SVLIB_STRING_BUFFER_START_SIZE`). -/
theorem C10_first_buffer_has_default_size (malloc : Nat → Option Nat) (buf : Nat)
    (hm : malloc SVLIB_STRING_BUFFER_START_SIZE = some buf) :
    (getLibStringBuffer malloc StringBuffer.initial 0).1 = some buf ∧
    (getLibStringBuffer malloc StringBuffer.initial 0).1 ≠ none ∧
    getLibStringBufferSize (getLibStringBuffer malloc StringBuffer.initial 0).2 = 256 ∧
    SVLIB_STRING_BUFFER_START_SIZE = 256 := by
  have h : getLibStringBuffer malloc StringBuffer.initial 0
      = (some buf, ⟨some buf, SVLIB_STRING_BUFFER_START_SIZE⟩) := by
    rw [getLibStringBuffer]
    simp only [StringBuffer.initial, le_refl, dite_true, if_true]
    exact getLibStringBuffer_grow malloc ⟨none, 0⟩ SVLIB_STRING_BUFFER_START_SIZE buf
      (by decide) (by decide) hm
  rw [h]
  exact ⟨rfl, by simp, by simp [getLibStringBufferSize, SVLIB_STRING_BUFFER_START_SIZE], rfl⟩

theorem C10_first_buffer_witness :
    (getLibStringBuffer (fun size => if size ≤ 4096 then some 7000 else none)
      StringBuffer.initial 0).1 = some 7000 ∧
    getLibStringBufferSize (getLibStringBuffer (fun size => if size ≤ 4096 then some 7000 else none)
      StringBuffer.initial 0).2 = 256 :=
  have h := C10_first_buffer_has_default_size (fun size => if size ≤ 4096 then some 7000 else none)
    7000 (by decide)
  ⟨h.1, h.2.2.1⟩

/-! ### Regular-expression adapter -/

theorem regexRun_checked (R : RegexCodes) (eng : RegexEngine) (re str : String)
    (options startPos : Int) (a : svOpenArray) (hv : PassesValidation a) :
    svlib_dpi_imported_regexRun R eng re str options startPos a
      = regexRunChecked R eng re str options startPos a := by
  obtain ⟨hdim, heven, hleft⟩ := hv
  have hsize : svSizeOfArray a / 4 = a.elems.length := by
    simp [svSizeOfArray]
  have hhalf : (if a.elems.length ≠ 0 then a.elems.length / 2 else a.elems.length)
      = a.elems.length / 2 := by
    by_cases h : a.elems.length = 0 <;> simp [h]
  have hl : ¬ (a.elems.length ≠ 0 ∧ svLeft a ≠ 0) := by
    rintro ⟨h1, h2⟩
    exact h2 (hleft (by intro h; simp [h] at h1))
  have ho : ¬ (a.elems.length ≠ 0 ∧ a.elems.length % 2 ≠ 0) := by
    rintro ⟨_, h2⟩
    exact h2 heven
  unfold svlib_dpi_imported_regexRun regexRunChecked
  simp only [svDimensions, hdim, hsize, ne_eq, not_true_eq_false, if_false, ho, hl, hhalf]

theorem storeElem_ascending (a : svOpenArray) (n idx : Nat) (v : Int)
    (hl : AscendingLayout a n) (hi : idx < n) :
    storeElem a (idx : Int) v = .ok ⟨a.dimensions, a.left, a.right, a.elems.set idx v⟩ := by
  obtain ⟨h0, hr, hlen⟩ := hl
  have hrange : (a.left ≤ (idx : Int) ∧ (idx : Int) ≤ a.right) ∨
      (a.right ≤ (idx : Int) ∧ (idx : Int) ≤ a.left) := by
    left; rw [h0, hr]; omega
  have hpos : ((idx : Int) - a.left).natAbs = idx := by rw [h0]; simp
  unfold storeElem svGetArrElemPtr1
  rw [if_pos hrange, hpos, if_pos (by rw [hlen]; exact hi)]

theorem copyMatch_ascending (startPos : Int) (ms : Nat → regmatch_t) (a : svOpenArray)
    (n i : Nat) (hl : AscendingLayout a n) (hi : 2 * i + 1 < n) :
    copyMatch startPos ms a i
      = .ok ⟨a.dimensions, a.left, a.right,
          (a.elems.set (2 * i) (groupOffsets startPos (ms i)).1).set (2 * i + 1)
            (groupOffsets startPos (ms i)).2⟩ := by
  have h1 : ∀ v, storeElem a (2 * (i : Int)) v
      = .ok ⟨a.dimensions, a.left, a.right, a.elems.set (2 * i) v⟩ := by
    intro v
    have := storeElem_ascending a n (2 * i) v hl (by omega)
    simpa using this
  have h2 : ∀ v w, storeElem ⟨a.dimensions, a.left, a.right, a.elems.set (2 * i) v⟩
      (2 * (i : Int) + 1) w
      = .ok ⟨a.dimensions, a.left, a.right, (a.elems.set (2 * i) v).set (2 * i + 1) w⟩ := by
    intro v w
    have hl2 : AscendingLayout ⟨a.dimensions, a.left, a.right, a.elems.set (2 * i) v⟩ n :=
      ⟨hl.1, hl.2.1, by simp [hl.2.2]⟩
    have := storeElem_ascending _ n (2 * i + 1) w hl2 hi
    simpa using this
  unfold copyMatch groupOffsets
  by_cases hneg : (ms i).rm_so < 0
  · simp [hneg, h1, h2]
  · simp [hneg, h1, h2]

theorem copyMatches_ascending (startPos : Int) (ms : Nat → regmatch_t) (n : Nat) :
    ∀ (k i : Nat) (a : svOpenArray), AscendingLayout a n → 2 * (i + k) ≤ n →
      ∃ b, copyMatches startPos ms k i a = .ok b ∧ AscendingLayout b n ∧
        b.dimensions = a.dimensions ∧
        (∀ g, i ≤ g → g < i + k →
          b.elems[2 * g]? = some (groupOffsets startPos (ms g)).1 ∧
          b.elems[2 * g + 1]? = some (groupOffsets startPos (ms g)).2) ∧
        (∀ j, j < 2 * i ∨ 2 * (i + k) ≤ j → b.elems[j]? = a.elems[j]?) := by
  intro k
  induction k with
  | zero =>
    intro i a hl _
    exact ⟨a, rfl, hl, rfl, fun g h1 h2 => by omega, fun _ _ => rfl⟩
  | succ k ih =>
    intro i a hl hb
    have hstep := copyMatch_ascending startPos ms a n i hl (by omega)
    have hl1 : AscendingLayout ⟨a.dimensions, a.left, a.right,
        (a.elems.set (2 * i) (groupOffsets startPos (ms i)).1).set (2 * i + 1)
          (groupOffsets startPos (ms i)).2⟩ n := ⟨hl.1, hl.2.1, by simp [hl.2.2]⟩
    obtain ⟨b, hrun, hlb, hdim, hwritten, hkept⟩ := ih (i + 1) _ hl1 (by omega)
    refine ⟨b, by simp [copyMatches, hstep, hrun], hlb, hdim, ?_, ?_⟩
    · intro g hg1 hg2
      by_cases hgi : g = i
      · subst hgi
        have hlen : a.elems.length = n := hl.2.2
        constructor
        · rw [hkept (2 * g) (Or.inl (by omega))]
          simp [List.getElem?_set]
          omega
        · rw [hkept (2 * g + 1) (Or.inl (by omega))]
          simp [List.getElem?_set]
          omega
      · exact hwritten g (by omega) (by omega)
    · intro j hj
      rw [hkept j (by omega)]
      simp only [List.getElem?_set]
      have : ¬ (2 * i + 1 = j) := by omega
      have : ¬ (2 * i = j) := by omega
      simp [*]

theorem validMatchList_passes (a : svOpenArray) (hv : ValidMatchList a) : PassesValidation a :=
  ⟨hv.1, hv.2.1, fun h => (hv.2.2 h).1⟩

theorem regexRun_match (R : RegexCodes) (eng : RegexEngine) (re str : String)
    (options startPos : Int) (a : svOpenArray) (hv : ValidMatchList a)
    (hcomp : (eng.regcomp re (regexCflags R options)).1 = 0)
    (hexec : (eng.regexec (eng.regcomp re (regexCflags R options)).2 str startPos
      (a.elems.length / 2)).1 = 0) :
    ∃ b, svlib_dpi_imported_regexRun R eng re str options startPos a
        = .ok ⟨0, ((eng.regcomp re (regexCflags R options)).2.re_nsub + 1 : Nat), b,
            [.regcomp re (regexCflags R options), .regexec startPos (a.elems.length / 2),
              .regfree]⟩ ∧
      b.elems.length = a.elems.length ∧
      (∀ g, g < min (a.elems.length / 2) ((eng.regcomp re (regexCflags R options)).2.re_nsub + 1) →
        b.elems[2 * g]? = some (groupOffsets startPos
          ((eng.regexec (eng.regcomp re (regexCflags R options)).2 str startPos
            (a.elems.length / 2)).2 g)).1 ∧
        b.elems[2 * g + 1]? = some (groupOffsets startPos
          ((eng.regexec (eng.regcomp re (regexCflags R options)).2 str startPos
            (a.elems.length / 2)).2 g)).2) ∧
      (∀ j, 2 * min (a.elems.length / 2)
          ((eng.regcomp re (regexCflags R options)).2.re_nsub + 1) ≤ j →
        b.elems[j]? = a.elems[j]?) := by
  rw [regexRun_checked R eng re str options startPos a (validMatchList_passes a hv)]
  unfold regexRunChecked
  simp only [hcomp, hexec, ne_eq, not_true_eq_false, if_false, if_true]
  by_cases hemp : a.elems = []
  · refine ⟨a, by simp [hemp, copyMatches], rfl, fun g hg => ?_, fun _ _ => rfl⟩
    simp [hemp] at hg
  · obtain ⟨hl, hr⟩ := hv.2.2 hemp
    have hlay : AscendingLayout a a.elems.length := ⟨hl, hr, rfl⟩
    obtain ⟨b, hrun, hlb, _, hwritten, hkept⟩ :=
      copyMatches_ascending startPos
        (eng.regexec (eng.regcomp re (regexCflags R options)).2 str startPos
          (a.elems.length / 2)).2 a.elems.length
        (min (a.elems.length / 2) ((eng.regcomp re (regexCflags R options)).2.re_nsub + 1))
        0 a hlay (by omega)
    refine ⟨b, by rw [hrun], hlb.2.2, fun g hg => hwritten g (Nat.zero_le g) (by omega),
      fun j hj => hkept j (Or.inr (by omega))⟩

/-- C5: for a pattern that compiles and a valid output array, a match gives
status 0 and `matchCount = 1 + re_nsub` (one more than the number of
capturing groups) whatever the size of the array; "no match" gives status 0,
`matchCount = 0` and the output array unchanged. -/
theorem C5_match_count_reported (R : RegexCodes) (eng : RegexEngine) (re str : String)
    (options startPos : Int) (a : svOpenArray) (hv : ValidMatchList a)
    (hcomp : (eng.regcomp re (regexCflags R options)).1 = 0) :
    ((eng.regexec (eng.regcomp re (regexCflags R options)).2 str startPos
        (a.elems.length / 2)).1 = 0 →
      ∃ r, svlib_dpi_imported_regexRun R eng re str options startPos a = .ok r ∧
        r.status = 0 ∧
        r.matchCount = 1 + ((eng.regcomp re (regexCflags R options)).2.re_nsub : Int)) ∧
    (R.REG_NOMATCH ≠ 0 →
      (eng.regexec (eng.regcomp re (regexCflags R options)).2 str startPos
        (a.elems.length / 2)).1 = R.REG_NOMATCH →
      ∃ r, svlib_dpi_imported_regexRun R eng re str options startPos a = .ok r ∧
        r.status = 0 ∧ r.matchCount = 0 ∧ r.matchList = a) := by
  constructor
  · intro hexec
    obtain ⟨b, hrun, _⟩ := regexRun_match R eng re str options startPos a hv hcomp hexec
    exact ⟨_, hrun, rfl, by push_cast; omega⟩
  · intro hne hexec
    rw [regexRun_checked R eng re str options startPos a (validMatchList_passes a hv)]
    unfold regexRunChecked
    simp only [hcomp, hexec, ne_eq, not_true_eq_false, if_false, if_true, hne]
    exact ⟨_, rfl, rfl, rfl, rfl⟩

theorem C5_match_count_witness :
    ValidMatchList fourSlots ∧
    (∃ r, svlib_dpi_imported_regexRun glibcRegex matchesThree "abc(d)?" "xyabc" 0 2 fourSlots
        = .ok r ∧ r.status = 0 ∧ r.matchCount = 1 + 1) ∧
    (∃ r, svlib_dpi_imported_regexRun glibcRegex neverMatches "abc" "xyz" 0 0 fourSlots
        = .ok r ∧ r.status = 0 ∧ r.matchCount = 0 ∧ r.matchList = fourSlots) :=
  have hv : ValidMatchList fourSlots := ⟨rfl, rfl, fun _ => ⟨rfl, by decide⟩⟩
  ⟨hv,
    (C5_match_count_reported glibcRegex matchesThree "abc(d)?" "xyabc" 0 2 fourSlots hv rfl).1 rfl,
    (C5_match_count_reported glibcRegex neverMatches "abc" "xyz" 0 0 fourSlots hv rfl).2
      (by decide) rfl⟩

/-- C6: for an output array that is not one-dimensional, or has an odd
number of elements, `svlib_dpi_imported_regexRun` returns the validation
error `-1` (as `uint32_t`), with `matchCount` 0, the array unwritten and no
call to the engine. -/
theorem C6_bad_shape_rejected_before_engine (R : RegexCodes) (eng : RegexEngine)
    (re str : String) (options startPos : Int) (a : svOpenArray)
    (h : a.dimensions ≠ 1 ∨ a.elems.length % 2 = 1) :
    svlib_dpi_imported_regexRun R eng re str options startPos a
      = .ok ⟨toUInt32 (-1), 0, a, []⟩ ∧
    toInt32 (toUInt32 (-1)) = -1 := by
  refine ⟨?_, by decide⟩
  unfold svlib_dpi_imported_regexRun
  by_cases hdim : a.dimensions = 1
  · have hodd : a.elems.length % 2 = 1 := h.resolve_left (fun c => c hdim)
    have hsize : svSizeOfArray a / 4 = a.elems.length := by simp [svSizeOfArray]
    have hc : a.elems.length ≠ 0 ∧ a.elems.length % 2 ≠ 0 := by omega
    simp only [svDimensions, hdim, hsize, ne_eq, not_true_eq_false, if_false]
    rw [if_pos hc]
  · simp [svDimensions, hdim]

theorem C6_bad_shape_witness :
    (threeSlots.dimensions ≠ 1 ∨ threeSlots.elems.length % 2 = 1) ∧
    svlib_dpi_imported_regexRun glibcRegex matchesThree "abc" "xyabc" 0 2 threeSlots
      = .ok ⟨4294967295, 0, threeSlots, []⟩ :=
  ⟨Or.inr rfl,
    (C6_bad_shape_rejected_before_engine glibcRegex matchesThree "abc" "xyabc" 0 2 threeSlots
      (Or.inr rfl)).1⟩

/-- C7 fails as stated: the two-element array declared `[0:-1]` is
one-dimensional, non-empty, of even length and descending, yet it is not
rejected: the pattern is compiled and executed and the status is 0; with an
engine that reports a match, the copy loop then stores through the null
pointer that `svGetArrElemPtr1` gives for index 1. -/
theorem C7_descending_array_with_left_zero_is_accepted :
    descendingPair.dimensions = 1 ∧ descendingPair.elems ≠ [] ∧
    descendingPair.elems.length % 2 = 0 ∧ descendingPair.right < descendingPair.left ∧
    (∃ r, svlib_dpi_imported_regexRun glibcRegex neverMatches "abc" "xyz" 0 0 descendingPair
        = .ok r ∧ r.status = 0 ∧ r.status ≠ toUInt32 (-1) ∧
        r.calls = [.regcomp "abc" 1, .regexec 0 1, .regfree]) ∧
    svlib_dpi_imported_regexRun glibcRegex matchesThree "abc" "xyabc" 0 2 descendingPair
      = .error .badPointer :=
  ⟨rfl, by decide, rfl, by decide, ⟨_, rfl, rfl, by decide, rfl⟩, rfl⟩

/-- C7 as amended: for a one-dimensional, non-empty, even-length output
array the left bound alone decides: if it is not 0 the call returns the
validation error `-1` with no element written and no call to the engine; if
it is 0 the array passes validation whatever its direction, and the pattern
is compiled. -/
theorem C7_left_bound_alone_decides (R : RegexCodes) (eng : RegexEngine) (re str : String)
    (options startPos : Int) (a : svOpenArray) (hdim : a.dimensions = 1)
    (hne : a.elems ≠ []) (heven : a.elems.length % 2 = 0) :
    (a.left ≠ 0 →
      svlib_dpi_imported_regexRun R eng re str options startPos a
        = .ok ⟨toUInt32 (-1), 0, a, []⟩) ∧
    (a.left = 0 →
      ∀ r, svlib_dpi_imported_regexRun R eng re str options startPos a = .ok r →
        r.calls.head? = some (EngineCall.regcomp re (regexCflags R options))) := by
  have hlen : a.elems.length ≠ 0 := by
    intro h; exact hne (List.length_eq_zero.mp h)
  constructor
  · intro hleft
    unfold svlib_dpi_imported_regexRun
    have hsize : svSizeOfArray a / 4 = a.elems.length := by simp [svSizeOfArray]
    have ho : ¬ (a.elems.length ≠ 0 ∧ a.elems.length % 2 ≠ 0) := by omega
    have hl : a.elems.length ≠ 0 ∧ svLeft a ≠ 0 := ⟨hlen, hleft⟩
    simp only [svDimensions, hdim, hsize, ne_eq, not_true_eq_false, if_false]
    rw [if_neg ho, if_pos hl]
  · intro hleft r hr
    rw [regexRun_checked R eng re str options startPos a ⟨hdim, heven, fun _ => hleft⟩] at hr
    unfold regexRunChecked at hr
    simp only at hr
    split at hr
    · injection hr with hr; rw [← hr]; rfl
    · split at hr
      · split at hr
        · exact absurd hr (by simp)
        · injection hr with hr; rw [← hr]; rfl
      · split at hr
        · injection hr with hr; rw [← hr]; rfl
        · injection hr with hr; rw [← hr]; rfl

theorem C7_left_bound_witness :
    (oneBasedPair.dimensions = 1 ∧ oneBasedPair.elems ≠ [] ∧
      oneBasedPair.elems.length % 2 = 0 ∧ oneBasedPair.left ≠ 0) ∧
    svlib_dpi_imported_regexRun glibcRegex matchesThree "abc" "xyabc" 0 2 oneBasedPair
      = .ok ⟨4294967295, 0, oneBasedPair, []⟩ :=
  ⟨⟨rfl, by decide, rfl, by decide⟩,
    (C7_left_bound_alone_decides glibcRegex matchesThree "abc" "xyabc" 0 2 oneBasedPair rfl
      (by decide) rfl).1 (by decide)⟩

/-- C8: for a valid output array, a failed compilation with engine code `e`
returns `e` with `matchCount` 0 and the array unwritten; a failed execution
with an engine code `e` other than "no match" returns `e` unchanged with the
array unwritten. -/
theorem C8_engine_errors_propagate (R : RegexCodes) (eng : RegexEngine) (re str : String)
    (options startPos : Int) (a : svOpenArray) (hv : ValidMatchList a) :
    (∀ e, e ≠ 0 → (eng.regcomp re (regexCflags R options)).1 = e →
      ∃ r, svlib_dpi_imported_regexRun R eng re str options startPos a = .ok r ∧
        r.status = e ∧ r.matchCount = 0 ∧ r.matchList = a) ∧
    (∀ e, (eng.regcomp re (regexCflags R options)).1 = 0 → e ≠ 0 → e ≠ R.REG_NOMATCH →
      (eng.regexec (eng.regcomp re (regexCflags R options)).2 str startPos
        (a.elems.length / 2)).1 = e →
      ∃ r, svlib_dpi_imported_regexRun R eng re str options startPos a = .ok r ∧
        r.status = e ∧ r.matchList = a) := by
  rw [regexRun_checked R eng re str options startPos a (validMatchList_passes a hv)]
  unfold regexRunChecked
  constructor
  · intro e he hcomp
    simp only [hcomp, ne_eq, he, not_false_eq_true, if_true]
    exact ⟨_, rfl, rfl, rfl, rfl⟩
  · intro e hcomp he hnm hexec
    simp only [hcomp, hexec, ne_eq, not_true_eq_false, if_false, he, hnm]
    exact ⟨_, rfl, rfl, rfl⟩

theorem C8_engine_errors_witness :
    ValidMatchList fourSlots ∧
    (∃ r, svlib_dpi_imported_regexRun glibcRegex rejectsAll "a(" "xyz" 0 0 fourSlots = .ok r ∧
      r.status = 7 ∧ r.matchCount = 0 ∧ r.matchList = fourSlots) ∧
    (∃ r, svlib_dpi_imported_regexRun glibcRegex failsToRun "a" "xyz" 0 0 fourSlots = .ok r ∧
      r.status = 12 ∧ r.matchList = fourSlots) :=
  have hv : ValidMatchList fourSlots := ⟨rfl, rfl, fun _ => ⟨rfl, by decide⟩⟩
  ⟨hv,
    (C8_engine_errors_propagate glibcRegex rejectsAll "a(" "xyz" 0 0 fourSlots hv).1 7
      (by decide) rfl,
    (C8_engine_errors_propagate glibcRegex failsToRun "a" "xyz" 0 0 fourSlots hv).2 12 rfl
      (by decide) (by decide) rfl⟩

/-! ### Scratch buffer manager: growth, invariant, failed allocation -/

theorem getLibStringBuffer_positive (malloc : Nat → Option Nat) (st : StringBuffer) (size : Nat)
    (hpos : 0 < size) :
    getLibStringBuffer malloc st size =
      if st.libStringBufferSize < size then
        match malloc size with
        | none => (st.libStringBuffer, st)
        | some buf => (some buf, ⟨some buf, size⟩)
      else (st.libStringBuffer, st) := by
  rw [getLibStringBuffer]
  have : ¬ size ≤ 0 := by omega
  simp only [this, dite_false]

theorem getLibStringBuffer_eq (malloc : Nat → Option Nat) (st : StringBuffer) (size : Nat) :
    getLibStringBuffer malloc st size =
      if st.libStringBufferSize < requestedSize st size then
        match malloc (requestedSize st size) with
        | none => (st.libStringBuffer, st)
        | some buf => (some buf, ⟨some buf, requestedSize st size⟩)
      else (st.libStringBuffer, st) := by
  by_cases h0 : size = 0
  · subst h0
    rw [getLibStringBuffer]
    by_cases hb : st.libStringBuffer = none
    · simp only [le_refl, dite_true, hb, if_true, requestedSize]
      rw [getLibStringBuffer_positive malloc st SVLIB_STRING_BUFFER_START_SIZE (by decide), hb]
    · simp [hb, requestedSize]
  · rw [getLibStringBuffer_positive malloc st size (by omega)]
    simp [requestedSize, h0]

theorem requestedSize_pos_of_grow (st : StringBuffer) (size : Nat)
    (h : st.libStringBufferSize < requestedSize st size) : 0 < requestedSize st size := by
  omega

/-- C11: the capacity after `getLibStringBuffer(size)` is never smaller than
the capacity before, whatever the state, the request and the outcome of
`malloc` (both the recorded `libStringBufferSize` and what
`getLibStringBufferSize()` reports); and when `size` is strictly positive and
larger than the current capacity and the allocation succeeds, the capacity
afterwards is exactly `size`. -/
theorem C11_capacity_never_shrinks (malloc : Nat → Option Nat) (st : StringBuffer) (size : Nat) :
    st.libStringBufferSize ≤ (getLibStringBuffer malloc st size).2.libStringBufferSize ∧
    getLibStringBufferSize st ≤ getLibStringBufferSize (getLibStringBuffer malloc st size).2 ∧
    (∀ buf, 0 < size → st.libStringBufferSize < size → malloc size = some buf →
      (getLibStringBuffer malloc st size).2.libStringBufferSize = size ∧
      getLibStringBufferSize (getLibStringBuffer malloc st size).2 = size ∧
      (getLibStringBuffer malloc st size).1 = some buf) := by
  refine ⟨?_, ?_, ?_⟩
  · rw [getLibStringBuffer_eq]
    split
    · rename_i h
      cases hm : malloc (requestedSize st size) with
      | none => simp
      | some b => simp; omega
    · simp
  · rw [getLibStringBuffer_eq]
    split
    · rename_i h
      cases hm : malloc (requestedSize st size) with
      | none => simp
      | some b =>
        have hpos := requestedSize_pos_of_grow st size h
        by_cases hb : st.libStringBuffer = none
        · simp [getLibStringBufferSize, hb]
        · simp only [getLibStringBufferSize, hb, if_false]
          simp
          omega
    · simp
  · intro buf hpos hlt hm
    rw [getLibStringBuffer_grow malloc st size buf hpos hlt hm]
    simp [getLibStringBufferSize]

theorem C11_capacity_witness :
    (getLibStringBuffer mallocSucceeds ⟨some 6000, 256⟩ 1000).2.libStringBufferSize = 1000 ∧
    getLibStringBufferSize (getLibStringBuffer mallocSucceeds ⟨some 6000, 256⟩ 1000).2 = 1000 ∧
    (getLibStringBuffer mallocSucceeds ⟨some 6000, 256⟩ 1000).1 = some 7000 :=
  (C11_capacity_never_shrinks mallocSucceeds ⟨some 6000, 256⟩ 1000).2.2 7000 (by decide)
    (by decide) rfl

theorem reachable_invariant (st : StringBuffer) (h : Reachable st) :
    (st.libStringBufferSize = 0 ↔ st.libStringBuffer = none) := by
  induction h with
  | initial => simp [StringBuffer.initial]
  | call st malloc size _ ih =>
    rw [getLibStringBuffer_eq]
    split
    · rename_i hlt
      cases hm : malloc (requestedSize st size) with
      | none => simpa using ih
      | some b =>
        simp only
        constructor
        · intro h0; omega
        · intro hn; simp at hn
    · simpa using ih

/-- C12: in every state reachable from the initial state by calls of
`getLibStringBuffer`, with any request sizes and allocations succeeding or
failing arbitrarily, the recorded capacity is 0 exactly when the buffer is
absent; so `getLibStringBufferSize()` returns 0 exactly when there is no
buffer, and the recorded capacity in every case. -/
theorem C12_capacity_zero_iff_no_buffer (st : StringBuffer) (h : Reachable st) :
    (st.libStringBufferSize = 0 ↔ st.libStringBuffer = none) ∧
    (getLibStringBufferSize st = 0 ↔ st.libStringBuffer = none) ∧
    getLibStringBufferSize st = st.libStringBufferSize := by
  have inv := reachable_invariant st h
  refine ⟨inv, ?_, ?_⟩
  · constructor
    · intro h0
      by_contra hb
      simp only [getLibStringBufferSize, hb, if_false] at h0
      exact hb (inv.mp h0)
    · intro hb
      simp [getLibStringBufferSize, hb]
  · by_cases hb : st.libStringBuffer = none
    · simp [getLibStringBufferSize, hb, inv.mpr hb]
    · simp [getLibStringBufferSize, hb]

theorem C12_capacity_witness :
    Reachable (getLibStringBuffer mallocFails
      (getLibStringBuffer mallocSucceeds StringBuffer.initial 0).2 4096).2 ∧
    getLibStringBufferSize (getLibStringBuffer mallocFails
      (getLibStringBuffer mallocSucceeds StringBuffer.initial 0).2 4096).2
      = (getLibStringBuffer mallocFails
          (getLibStringBuffer mallocSucceeds StringBuffer.initial 0).2 4096).2.libStringBufferSize :=
  have hr : Reachable (getLibStringBuffer mallocFails
      (getLibStringBuffer mallocSucceeds StringBuffer.initial 0).2 4096).2 :=
    Reachable.call _ mallocFails 4096 (Reachable.call _ mallocSucceeds 0 Reachable.initial)
  ⟨hr, (C12_capacity_zero_iff_no_buffer _ hr).2.2⟩

/-- C13: if the allocation that `getLibStringBuffer(size)` attempts fails
(whenever the call asks `malloc` for memory, `malloc` returns `NULL`), the
call returns the buffer held before, possibly absent, and leaves
`libStringBuffer` and `libStringBufferSize` unchanged. -/
theorem C13_failed_allocation_keeps_buffer (malloc : Nat → Option Nat) (st : StringBuffer)
    (size : Nat)
    (hfail : st.libStringBufferSize < requestedSize st size →
      malloc (requestedSize st size) = none) :
    getLibStringBuffer malloc st size = (st.libStringBuffer, st) ∧
    (getLibStringBuffer malloc st size).1 = st.libStringBuffer ∧
    (getLibStringBuffer malloc st size).2.libStringBuffer = st.libStringBuffer ∧
    (getLibStringBuffer malloc st size).2.libStringBufferSize = st.libStringBufferSize := by
  have h : getLibStringBuffer malloc st size = (st.libStringBuffer, st) := by
    rw [getLibStringBuffer_eq]
    split
    · rename_i hlt
      rw [hfail hlt]
    · rfl
  rw [h]
  exact ⟨rfl, rfl, rfl, rfl⟩

theorem C13_failed_allocation_witness :
    getLibStringBuffer mallocFails ⟨some 6000, 256⟩ 1000 = (some 6000, ⟨some 6000, 256⟩) ∧
    getLibStringBuffer mallocFails StringBuffer.initial 0 = (none, StringBuffer.initial) :=
  ⟨(C13_failed_allocation_keeps_buffer mallocFails ⟨some 6000, 256⟩ 1000 (fun _ => rfl)).1,
    (C13_failed_allocation_keeps_buffer mallocFails StringBuffer.initial 0 (fun _ => rfl)).1⟩

theorem minus_one_never_doubles (malloc : Nat → Option Nat) (st : StringBuffer)
    (hcap : 0 < st.libStringBufferSize) :
    (getLibStringBuffer malloc st sizeOfMinusOne).2.libStringBufferSize
      ≠ 2 * st.libStringBufferSize := by
  rw [getLibStringBuffer_positive malloc st sizeOfMinusOne (by decide)]
  split
  · cases hm : malloc sizeOfMinusOne with
    | none => simp; omega
    | some b => simp [sizeOfMinusOne]; omega
  · simp; omega

/-- C17 on the code: with a buffer of capacity 256, the request `-1` arrives
as `(size_t)-1 = 18446744073709551615`, which is not `<= 0`; the call asks
`malloc` for that many bytes and, the allocation failing, returns the old
buffer with capacity 256, not 512. Were the allocation to succeed the
capacity would be `18446744073709551615`. -/
theorem C17_minus_one_does_not_double :
    getLibStringBuffer mallocFails ⟨some 6000, 256⟩ sizeOfMinusOne
      = (some 6000, ⟨some 6000, 256⟩) ∧
    (getLibStringBuffer mallocSucceeds ⟨some 6000, 256⟩ sizeOfMinusOne).2.libStringBufferSize
      = 18446744073709551615 := by
  refine ⟨?_, ?_⟩
  · rw [getLibStringBuffer_positive mallocFails _ sizeOfMinusOne (by decide)]
    simp [mallocFails]
  · rw [getLibStringBuffer_positive mallocSucceeds _ sizeOfMinusOne (by decide)]
    simp [mallocSucceeds, sizeOfMinusOne]

/-! ### Argument-file flattener: end of a traversal, stack bound -/

theorem calls_before_last :
    ∀ (k : Nat) (out : List String) (st : FlatState) (h : Option (List Cell))
      (stack : List (Option (List Cell))) (ptr : Nat),
      svlib_dpi_imported_getVlogInfoNext st h
        = getVlogInfoNextLoop (stackWork stack (ptr + 1) + 1) stack ptr h →
      StackInv stack ptr → pendingArgs stack (ptr + 1) = out → k < out.length →
      ∃ stack2 ptr2,
        getVlogInfoCalls (k + 1) st h
          = .ok ((out.take (k + 1)).map some, ⟨some stack2, ptr2⟩, h) ∧
        StackInv stack2 ptr2 ∧ pendingArgs stack2 (ptr2 + 1) = out.drop (k + 1) := by
  intro k
  induction k with
  | zero =>
    intro out st h stack ptr hnext inv hp hk
    rcases loop_spec h _ stack ptr inv (Nat.lt_succ_self _) with
      ⟨he, _⟩ | ⟨s, stack2, ptr2, hs, hl, inv2⟩
    · rw [hp] at he; subst he; simp at hk
    · rw [hp] at hs
      subst hs
      exact ⟨stack2, ptr2, by simp [getVlogInfoCalls, hnext, hl], inv2, by simp⟩
  | succ k ih =>
    intro out st h stack ptr hnext inv hp hk
    rcases loop_spec h _ stack ptr inv (Nat.lt_succ_self _) with
      ⟨he, _⟩ | ⟨s, stack2, ptr2, hs, hl, inv2⟩
    · rw [hp] at he; subst he; simp at hk
    · rw [hp] at hs
      subst hs
      obtain ⟨stack3, ptr3, hrun, inv3, hp3⟩ :=
        ih (pendingArgs stack2 (ptr2 + 1)) ⟨some stack2, ptr2⟩ h stack2 ptr2 rfl inv2 rfl
          (by simp at hk; omega)
      refine ⟨stack3, ptr3, ?_, inv3, by simpa using hp3⟩
      have : getVlogInfoCalls (k + 1 + 1) st h
          = match getVlogInfoCalls (k + 1) ⟨some stack2, ptr2⟩ h with
            | .error e => .error e
            | .ok (o, st2, h2) => .ok (some s :: o, st2, h2) := by
        simp [getVlogInfoCalls, hnext, hl]
      rw [this, hrun]
      simp

theorem initial_stack_inv (root : List Cell) (hw : WellFormed 31 root) :
    StackInv ((List.replicate ARGV_STACK_PTR_SIZE none).set 0 (some root)) 0 ∧
    pendingArgs ((List.replicate ARGV_STACK_PTR_SIZE none).set 0 (some root)) (0 + 1)
      = flattenVec root := by
  constructor
  · refine ⟨by simp, by simp [ARGV_STACK_PTR_SIZE], fun i hi => ?_⟩
    have : i = 0 := by omega
    subst this
    exact ⟨root, by simp [ARGV_STACK_PTR_SIZE], hw⟩
  · simp [pendingArgs, slotArgs, ARGV_STACK_PTR_SIZE]

/-- C14: for a well-formed root vector, each call of the traversal before
the last returns an argument, keeps the caller's handle and leaves the stack
in place; the call that finds the outermost sentinel with the stack pointer
at 0 returns `NULL`, nulls the handle and puts the statics back to their
initial value, and this is the last of the `n+1` calls, after all `n`
arguments; a traversal then started with a new root vector behaves as from
the initial statics. -/
theorem C14_traversal_ends_with_reset (root root2 : List Cell) (hw : WellFormed 31 root)
    (hw2 : WellFormed 31 root2) :
    (∀ (stack : List (Option (List Cell))) (h : Option (List Cell)),
      stack[0]? = some (some []) →
      svlib_dpi_imported_getVlogInfoNext ⟨some stack, 0⟩ h
        = .ok ⟨none, FlatState.initial, none⟩) ∧
    (∀ k, k < (flattenVec root).length → ∃ stack ptr,
      getVlogInfoCalls (k + 1) FlatState.initial (some root)
        = .ok (((flattenVec root).take (k + 1)).map some, ⟨some stack, ptr⟩, some root)) ∧
    getVlogInfoCalls ((flattenVec root).length + 1) FlatState.initial (some root)
      = .ok ((flattenVec root).map some ++ [none], FlatState.initial, none) ∧
    (∀ out st h,
      getVlogInfoCalls ((flattenVec root).length + 1) FlatState.initial (some root)
        = .ok (out, st, h) →
      (∀ m, getVlogInfoCalls m st (some root2)
        = getVlogInfoCalls m FlatState.initial (some root2)) ∧
      getVlogInfoCalls ((flattenVec root2).length + 1) st (some root2)
        = .ok ((flattenVec root2).map some ++ [none], FlatState.initial, none)) := by
  have hlast := flatten_calls root hw
  refine ⟨?_, ?_, hlast, ?_⟩
  · intro stack h h0
    simp [svlib_dpi_imported_getVlogInfoNext, getVlogInfoNextLoop, h0, FlatState.initial]
  · intro k hk
    obtain ⟨inv, hp⟩ := initial_stack_inv root hw
    obtain ⟨stack2, ptr2, hrun, _, _⟩ :=
      calls_before_last k (flattenVec root) FlatState.initial (some root) _ 0 rfl inv hp hk
    exact ⟨stack2, ptr2, hrun⟩
  · intro out st h hrun
    rw [hlast] at hrun
    simp only [Except.ok.injEq, Prod.mk.injEq] at hrun
    obtain ⟨_, hst, _⟩ := hrun
    subst hst
    exact ⟨fun _ => rfl, flatten_calls root2 hw2⟩

theorem C14_traversal_witness :
    WellFormed 31 (deepVector 2) ∧ WellFormed 31 [.str "a.sv", .str "b.sv"] ∧
    getVlogInfoCalls 2 FlatState.initial (some (deepVector 2))
      = .ok ([some "top.sv", none], FlatState.initial, none) ∧
    (∀ out st h,
      getVlogInfoCalls 2 FlatState.initial (some (deepVector 2)) = .ok (out, st, h) →
      getVlogInfoCalls 3 st (some [.str "a.sv", .str "b.sv"])
        = .ok ([some "a.sv", some "b.sv", none], FlatState.initial, none)) :=
  have hw : WellFormed 31 (deepVector 2) :=
    WellFormed.file 30 _ _ _ _ (by decide)
      (WellFormed.file 29 _ _ _ _ (by decide)
        (WellFormed.arg 29 _ _ (by decide) (WellFormed.nil 29)) (WellFormed.nil 30))
      (WellFormed.nil 31)
  have hw2 : WellFormed 31 [.str "a.sv", .str "b.sv"] :=
    WellFormed.arg 31 _ _ (by decide) (WellFormed.arg 31 _ _ (by decide) (WellFormed.nil 31))
  have hc := C14_traversal_ends_with_reset (deepVector 2) [.str "a.sv", .str "b.sv"] hw hw2
  ⟨hw, hw2, hc.2.2.1, fun out st h hrun => (hc.2.2.2 out st h hrun).2⟩

theorem getVlogInfoNextLoop_never_asserts (h : Option (List Cell)) :
    ∀ fuel stack ptr, getVlogInfoNextLoop fuel stack ptr h ≠ .error .assertFailed := by
  intro fuel
  induction fuel with
  | zero => intro stack ptr; simp [getVlogInfoNextLoop]
  | succ fuel ih =>
    intro stack ptr
    unfold getVlogInfoNextLoop
    split
    · simp
    · simp
    · split
      · simp
      · exact ih _ _
    · simp
    · split
      · split
        · simp
        · rename_i hsize
          split
          · simp
          · simp
          · split
            · simp
            · simp only
              split
              · exact ih _ _
              · rename_i hlt
                exact absurd (Nat.lt_of_not_le hsize) hlt
      · simp

set_option maxRecDepth 100000 in
/-- C15 on the code: with a root vector whose indirections nest 32 levels
deep, the first call reaches `argv_stack_ptr = 31` with a `-f` element and
stores into `argv_stack[32]`, one slot past the 32-entry allocation, before
the `assert` is evaluated; a vector nested 31 deep is served without leaving
the stack. -/
theorem C15_slot_32_is_written_before_the_assert :
    svlib_dpi_imported_getVlogInfoNext FlatState.initial (some (deepVector 32))
      = .error (.stackOutOfBounds 32) ∧
    (match svlib_dpi_imported_getVlogInfoNext FlatState.initial (some (deepVector 31)) with
      | .error _ => none
      | .ok r => r.ret) = some "top.sv" :=
  ⟨by rfl, by decide⟩

/-! ### Lazy collection iterator: the corruption status -/

/-- C16 fails as stated: the status `svlib_dpi_imported_saBufNext` returns
for a handle that fails the self-check is the very code `saBufCreate`
returns when an allocation fails (`ENOMEM`, 12 with the GNU C library). -/
theorem C16_corruption_status_is_the_allocation_failure_code :
    ∃ r, svlib_dpi_imported_saBufNext glibcErrno corruptHeap (some 1000) = .ok r ∧
      r.status = (saBufCreate glibcErrno Heap.empty none none (some FreeFunc.glob_freeFunc)).1 ∧
      r.status = (saBufCreate glibcErrno Heap.empty (some 1000) none
        (some FreeFunc.glob_freeFunc)).1 ∧
      r.status = 12 :=
  ⟨⟨12, some 1000, none, corruptHeap⟩, rfl, rfl, rfl, rfl⟩

/-- C16 as amended: the status returned for a handle that fails the
self-check is `ENOMEM`, the same code `saBufCreate` returns when either of
its allocations fails; it differs from the status 0 of normal exhaustion
since `ENOMEM` is not 0. -/
theorem C16_corruption_status_is_ENOMEM (E : ErrnoCodes) (hE : E.ENOMEM ≠ 0) (heap : Heap)
    (p : Nat) (b : saBuf) (hb : heap.bufs p = some b) (hbad : b.sanity_check ≠ some p) :
    ∃ r, svlib_dpi_imported_saBufNext E heap (some p) = .ok r ∧
      r.status = E.ENOMEM ∧ r.status ≠ 0 ∧
      (∀ (heap2 : Heap) (m1 m2 : Option Nat) (ff : Option FreeFunc),
        m1 = none ∨ m2 = none → (saBufCreate E heap2 m1 m2 ff).1 = r.status) := by
  refine ⟨⟨E.ENOMEM, some p, none, heap⟩, by simp [svlib_dpi_imported_saBufNext, hb, hbad],
    rfl, hE, ?_⟩
  intro heap2 m1 m2 ff hm
  cases m1 with
  | none => rfl
  | some a =>
    cases m2 with
    | none => rfl
    | some d => simp at hm

theorem C16_corruption_status_witness :
    ∃ r, svlib_dpi_imported_saBufNext glibcErrno corruptHeap (some 1000) = .ok r ∧
      r.status = 12 ∧ r.status ≠ 0 ∧
      (saBufCreate glibcErrno Heap.empty none (some 2000) none).1 = r.status := by
  obtain ⟨r, hr, hs, hn, hc⟩ := C16_corruption_status_is_ENOMEM glibcErrno (by decide)
    corruptHeap 1000
    ⟨some ⟨[some "a.sv", none], 0⟩, some FreeFunc.glob_freeFunc, some 2000, 0, none, some 4000⟩
    rfl (by decide)
  exact ⟨r, hr, hs, hn, hc Heap.empty none (some 2000) none (Or.inl rfl)⟩

/-! ### Time formatting: the retry loop -/

theorem getLibStringBuffer_no_memory (malloc : Nat → Option Nat) (hm : ∀ k, malloc k = none)
    (st : StringBuffer) (size : Nat) : getLibStringBuffer malloc st size = (st.libStringBuffer, st) := by
  rw [getLibStringBuffer_eq, hm]
  split <;> rfl

theorem timeFormatLoop_never_returns (E : ErrnoCodes) (malloc : Nat → Option Nat)
    (strftime : Nat → Nat × String) (st : StringBuffer) (hm : ∀ k, malloc k = none)
    (hcap : getLibStringBufferSize st < SVLIB_STRING_BUFFER_LONGEST_PATHNAME)
    (hfit : (strftime (getLibStringBufferSize st)).1 = 0) :
    ∀ fuel bSize attempts,
      timeFormatLoop E malloc strftime fuel st bSize attempts = .error .outOfFuel := by
  intro fuel
  induction fuel with
  | zero => intro _ _; rfl
  | succ fuel ih =>
    intro bSize attempts
    have hnot : ¬ SVLIB_STRING_BUFFER_LONGEST_PATHNAME ≤ getLibStringBufferSize st := by omega
    simp only [timeFormatLoop, getLibStringBuffer_no_memory malloc hm, hfit, ne_eq,
      not_true_eq_false, if_false, hnot]
    exact ih _ _

theorem getLibStringBuffer_with_memory (malloc : Nat → Option Nat)
    (hm : ∀ k, 0 < k → ∃ b, malloc k = some b) (st : StringBuffer) (size : Nat)
    (hinv : st.libStringBufferSize = 0 ↔ st.libStringBuffer = none) (hpos : 0 < size) :
    (getLibStringBuffer malloc st size).2.libStringBuffer ≠ none ∧
    (getLibStringBuffer malloc st size).2.libStringBufferSize = max st.libStringBufferSize size ∧
    (getLibStringBuffer malloc st size).1 = (getLibStringBuffer malloc st size).2.libStringBuffer := by
  rw [getLibStringBuffer_positive malloc st size hpos]
  by_cases hlt : st.libStringBufferSize < size
  · obtain ⟨b, hb⟩ := hm size hpos
    rw [if_pos hlt, hb]
    refine ⟨?_, ?_, rfl⟩
    · intro hn; cases hn
    · show size = max st.libStringBufferSize size
      omega
  · rw [if_neg hlt]
    refine ⟨fun hn => ?_, ?_, rfl⟩
    · have := hinv.mpr hn
      omega
    · show st.libStringBufferSize = max st.libStringBufferSize size
      omega

theorem timeFormatLoop_capped (E : ErrnoCodes) (malloc : Nat → Option Nat)
    (strftime : Nat → Nat × String) (hm : ∀ k, 0 < k → ∃ b, malloc k = some b) :
    ∀ (j fuel : Nat) (st : StringBuffer) (bSize attempts : Nat),
      (st.libStringBufferSize = 0 ↔ st.libStringBuffer = none) → 0 < bSize →
      SVLIB_STRING_BUFFER_LONGEST_PATHNAME ≤ max st.libStringBufferSize bSize * 2 ^ j →
      j < fuel →
      ∃ r, timeFormatLoop E malloc strftime fuel st bSize attempts = .ok r ∧
        r.attempts ≤ attempts + j + 1 ∧ r.formatted ≠ none ∧
        (r.status = 0 ∨ (r.status = E.ERANGE ∧ r.formatted = some timeFormatTooLong ∧
          SVLIB_STRING_BUFFER_LONGEST_PATHNAME ≤ r.buffer.libStringBufferSize)) := by
  intro j
  induction j with
  | zero =>
    intro fuel st bSize attempts hinv hpos hbig hfuel
    obtain ⟨f, rfl⟩ : ∃ f, fuel = f + 1 := ⟨fuel - 1, by omega⟩
    obtain ⟨hbuf, hcap, _⟩ := getLibStringBuffer_with_memory malloc hm st bSize hinv hpos
    have hsize : getLibStringBufferSize (getLibStringBuffer malloc st bSize).2
        = max st.libStringBufferSize bSize := by
      simp [getLibStringBufferSize, hbuf, hcap]
    simp only [pow_zero, Nat.mul_one] at hbig
    simp only [timeFormatLoop, hsize]
    by_cases hr : (strftime (max st.libStringBufferSize bSize)).1 = 0
    · simp only [hr, ne_eq, not_true_eq_false, if_false, hbig, if_true]
      exact ⟨_, rfl, by simp, by simp, Or.inr ⟨rfl, rfl, by rw [hcap]; exact hbig⟩⟩
    · simp only [ne_eq, hr, not_false_eq_true, if_true]
      exact ⟨_, rfl, by simp, by simp, Or.inl rfl⟩
  | succ j ih =>
    intro fuel st bSize attempts hinv hpos hbig hfuel
    obtain ⟨f, rfl⟩ : ∃ f, fuel = f + 1 := ⟨fuel - 1, by omega⟩
    obtain ⟨hbuf, hcap, _⟩ := getLibStringBuffer_with_memory malloc hm st bSize hinv hpos
    have hsize : getLibStringBufferSize (getLibStringBuffer malloc st bSize).2
        = max st.libStringBufferSize bSize := by
      simp [getLibStringBufferSize, hbuf, hcap]
    simp only [timeFormatLoop, hsize]
    by_cases hr : (strftime (max st.libStringBufferSize bSize)).1 = 0
    · by_cases hlong : SVLIB_STRING_BUFFER_LONGEST_PATHNAME ≤ max st.libStringBufferSize bSize
      · simp only [hr, ne_eq, not_true_eq_false, if_false, hlong, if_true]
        exact ⟨_, rfl, by simp, by simp, Or.inr ⟨rfl, rfl, by rw [hcap]; exact hlong⟩⟩
      · simp only [hr, ne_eq, not_true_eq_false, if_false, hlong]
        have hsmall : max st.libStringBufferSize bSize < 8192 := by
          simpa [SVLIB_STRING_BUFFER_LONGEST_PATHNAME] using hlong
        have hmod : max st.libStringBufferSize bSize * 2 % 18446744073709551616
            = max st.libStringBufferSize bSize * 2 := by
          apply Nat.mod_eq_of_lt; omega
        rw [hmod]
        have hinv1 : (getLibStringBuffer malloc st bSize).2.libStringBufferSize = 0 ↔
            (getLibStringBuffer malloc st bSize).2.libStringBuffer = none := by
          constructor
          · intro h0; rw [hcap] at h0; omega
          · intro hn; exact absurd hn hbuf
        have hmax : max (getLibStringBuffer malloc st bSize).2.libStringBufferSize
            (max st.libStringBufferSize bSize * 2) = max st.libStringBufferSize bSize * 2 := by
          rw [hcap]; omega
        have hbig1 : SVLIB_STRING_BUFFER_LONGEST_PATHNAME
            ≤ max (getLibStringBuffer malloc st bSize).2.libStringBufferSize
                (max st.libStringBufferSize bSize * 2) * 2 ^ j := by
          rw [hmax]
          have : max st.libStringBufferSize bSize * 2 ^ (j + 1)
              = max st.libStringBufferSize bSize * 2 * 2 ^ j := by
            rw [pow_succ]; ring
          rw [← this]; exact hbig
        obtain ⟨r, hrun, hatt, hsome, hst⟩ := ih f (getLibStringBuffer malloc st bSize).2
          (max st.libStringBufferSize bSize * 2) (attempts + 1) hinv1 (by omega) hbig1
          (by omega)
        exact ⟨r, hrun, by omega, hsome, hst⟩
    · simp only [ne_eq, hr, not_false_eq_true, if_true]
      exact ⟨_, rfl, by simp, by simp, Or.inl rfl⟩

/-- The retry of `svlib_dpi_imported_timeFormat` is capped when every
allocation succeeds: from a state in which the capacity is 0 exactly when
the buffer is absent, six iterations are enough for the call to return, with
status 0 and the text of the formatter, or with `ERANGE` and the "exceeds
maximum buffer length" message once the capacity has reached 8192. -/
theorem timeFormat_capped_when_allocation_succeeds (E : ErrnoCodes)
    (malloc : Nat → Option Nat) (strftime : Int → String → Nat → Nat × String)
    (fuel : Nat) (st : StringBuffer) (epochSeconds : Int) (format : String)
    (formatted : Option String) (hm : ∀ k, 0 < k → ∃ b, malloc k = some b)
    (hinv : st.libStringBufferSize = 0 ↔ st.libStringBuffer = none) :
    ∃ r, svlib_dpi_imported_timeFormat E malloc strftime (fuel + 6) st epochSeconds format
        formatted = .ok r ∧
      r.attempts ≤ 6 ∧
      (r.status = 0 ∨ (r.status = E.ERANGE ∧ r.formatted = some timeFormatTooLong ∧
        SVLIB_STRING_BUFFER_LONGEST_PATHNAME ≤ r.buffer.libStringBufferSize)) := by
  have hbig : SVLIB_STRING_BUFFER_LONGEST_PATHNAME
      ≤ max st.libStringBufferSize SVLIB_STRING_BUFFER_START_SIZE * 2 ^ 5 := by
    simp only [SVLIB_STRING_BUFFER_LONGEST_PATHNAME, SVLIB_STRING_BUFFER_START_SIZE]
    omega
  obtain ⟨r, hrun, hatt, hsome, hst⟩ := timeFormatLoop_capped E malloc
    (strftime epochSeconds format) hm 5 (fuel + 6) st SVLIB_STRING_BUFFER_START_SIZE 0 hinv
    (by decide) hbig (by omega)
  refine ⟨⟨r.status, r.formatted, r.buffer, r.attempts⟩, ?_, by simpa using hatt, hst⟩
  simp only [svlib_dpi_imported_timeFormat, hrun]
  cases hf : r.formatted with
  | none => exact absurd hf hsome
  | some t => rfl

/-- C18 on the code: with a scratch buffer of 256 bytes in place, no memory
left for `malloc` and a result that needs 300 bytes, the loop of
`svlib_dpi_imported_timeFormat` never returns: each iteration asks for 512
bytes, gets the old buffer back, reads its size 256 again and retries; the
cap at 8192 is never reached. The same happens from the initial state, where
the size read back is 0. -/
theorem C18_retry_never_ends_without_memory :
    (∀ (fuel : Nat) (epochSeconds : Int),
      svlib_dpi_imported_timeFormat glibcErrno mallocFails (fun _ _ => strftimeNeeds300) fuel
          ⟨some 6000, 256⟩ epochSeconds "%c %c %c %c %c %c %c %c %c %c %c %c" none
        = .error .outOfFuel) ∧
    (∀ (fuel : Nat) (epochSeconds : Int),
      svlib_dpi_imported_timeFormat glibcErrno mallocFails (fun _ _ => strftimeNeeds300) fuel
          StringBuffer.initial epochSeconds "%c %c %c %c %c %c %c %c %c %c %c %c" none
        = .error .outOfFuel) := by
  constructor
  · intro fuel epochSeconds
    simp only [svlib_dpi_imported_timeFormat]
    rw [timeFormatLoop_never_returns glibcErrno mallocFails strftimeNeeds300 ⟨some 6000, 256⟩
      (fun _ => rfl) (by decide) (by decide)]
  · intro fuel epochSeconds
    simp only [svlib_dpi_imported_timeFormat]
    rw [timeFormatLoop_never_returns glibcErrno mallocFails strftimeNeeds300 StringBuffer.initial
      (fun _ => rfl) (by decide) (by decide)]

theorem timeFormatLoop_empty_retry (E : ErrnoCodes) (fuel : Nat) (st : StringBuffer)
    (bSize attempts : Nat) (hpos : 0 < bSize) (hlt : st.libStringBufferSize < bSize)
    (hsmall : bSize < 8192) :
    timeFormatLoop E mallocSucceeds (fun _ => (0, "")) (fuel + 1) st bSize attempts
      = timeFormatLoop E mallocSucceeds (fun _ => (0, "")) fuel ⟨some 7000, bSize⟩ (bSize * 2)
          (attempts + 1) := by
  have hmod : bSize * 2 % 18446744073709551616 = bSize * 2 := by
    apply Nat.mod_eq_of_lt; omega
  have hnot : ¬ SVLIB_STRING_BUFFER_LONGEST_PATHNAME ≤ bSize := by
    simp [SVLIB_STRING_BUFFER_LONGEST_PATHNAME]; omega
  simp [timeFormatLoop, getLibStringBuffer_grow mallocSucceeds st bSize 7000 hpos hlt rfl,
    getLibStringBufferSize, hmod, hnot]

theorem timeFormatLoop_empty_last (E : ErrnoCodes) (fuel : Nat) (st : StringBuffer)
    (bSize attempts : Nat) (hlt : st.libStringBufferSize < bSize) (hbig : 8192 ≤ bSize) :
    timeFormatLoop E mallocSucceeds (fun _ => (0, "")) (fuel + 1) st bSize attempts
      = .ok ⟨E.ERANGE, some timeFormatTooLong, ⟨some 7000, bSize⟩, attempts + 1⟩ := by
  have hyes : SVLIB_STRING_BUFFER_LONGEST_PATHNAME ≤ bSize := by
    simp [SVLIB_STRING_BUFFER_LONGEST_PATHNAME]; omega
  simp [timeFormatLoop, getLibStringBuffer_grow mallocSucceeds st bSize 7000 (by omega) hlt rfl,
    getLibStringBufferSize, hyes]

/-- C19 on the code: called with an empty format (for which the formatter
writes nothing and returns 0), from the initial state and with every
allocation succeeding, `svlib_dpi_imported_timeFormat` does not stop after
`*formatted = ""`: it tries the buffer sizes 256, 512, 1024, 2048, 4096 and
8192 and returns `ERANGE` (34 with the GNU C library) with the "exceeds
maximum buffer length" message. -/
theorem C19_empty_format_ends_in_ERANGE :
    ∀ (fuel : Nat) (epochSeconds : Int) (formatted : Option String),
      svlib_dpi_imported_timeFormat glibcErrno mallocSucceeds strftimeEmptyFormat (fuel + 6)
          StringBuffer.initial epochSeconds "" formatted
        = .ok ⟨34, some "timeFormat result exceeds maximum buffer length (8192)",
            ⟨some 7000, 8192⟩, 6⟩ := by
  intro fuel epochSeconds formatted
  have h : timeFormatLoop glibcErrno mallocSucceeds (fun _ => ((0 : Nat), "")) (fuel + 6)
      StringBuffer.initial SVLIB_STRING_BUFFER_START_SIZE 0
      = .ok ⟨34, some timeFormatTooLong, ⟨some 7000, 8192⟩, 6⟩ := by
    rw [show fuel + 6 = (fuel + 5) + 1 from rfl,
      timeFormatLoop_empty_retry glibcErrno (fuel + 5) StringBuffer.initial
        SVLIB_STRING_BUFFER_START_SIZE 0 (by decide) (by decide) (by decide),
      show fuel + 5 = (fuel + 4) + 1 from rfl,
      timeFormatLoop_empty_retry glibcErrno (fuel + 4) _ _ _ (by decide) (by decide) (by decide),
      show fuel + 4 = (fuel + 3) + 1 from rfl,
      timeFormatLoop_empty_retry glibcErrno (fuel + 3) _ _ _ (by decide) (by decide) (by decide),
      show fuel + 3 = (fuel + 2) + 1 from rfl,
      timeFormatLoop_empty_retry glibcErrno (fuel + 2) _ _ _ (by decide) (by decide) (by decide),
      show fuel + 2 = (fuel + 1) + 1 from rfl,
      timeFormatLoop_empty_retry glibcErrno (fuel + 1) _ _ _ (by decide) (by decide) (by decide),
      timeFormatLoop_empty_last glibcErrno fuel _ _ _ (by decide) (by decide)]
    rfl
  have hf : strftimeEmptyFormat epochSeconds "" = fun _ => ((0 : Nat), "") := rfl
  simp only [svlib_dpi_imported_timeFormat, hf, h]
  rfl

/-! ### Regular-expression error text -/

theorem getLibStringBuffer_zero_with_memory (malloc : Nat → Option Nat)
    (hm : ∀ k, 0 < k → ∃ b, malloc k = some b) (st : StringBuffer)
    (hinv : st.libStringBufferSize = 0 ↔ st.libStringBuffer = none) :
    (getLibStringBuffer malloc st 0).2.libStringBuffer ≠ none ∧
    (getLibStringBuffer malloc st 0).1 = (getLibStringBuffer malloc st 0).2.libStringBuffer ∧
    (getLibStringBuffer malloc st 0).2.libStringBufferSize
      = (if st.libStringBuffer = none then SVLIB_STRING_BUFFER_START_SIZE
          else st.libStringBufferSize) := by
  rw [getLibStringBuffer_eq]
  by_cases hb : st.libStringBuffer = none
  · have hc : st.libStringBufferSize = 0 := hinv.mpr hb
    obtain ⟨b, hmb⟩ := hm SVLIB_STRING_BUFFER_START_SIZE (by decide)
    have hreq : requestedSize st 0 = SVLIB_STRING_BUFFER_START_SIZE := by simp [requestedSize, hb]
    rw [hreq, if_pos (by rw [hc]; decide), hmb]
    refine ⟨?_, rfl, ?_⟩
    · intro hn; cases hn
    · simp [hb]
  · have hreq : requestedSize st 0 = 0 := by simp [requestedSize, hb]
    rw [hreq, if_neg (by omega)]
    exact ⟨hb, rfl, by simp [hb]⟩

/-- C20: if the pattern compiles, `svlib_dpi_imported_regexErrorString`
returns `NULL` (no message) whatever error code it was given and leaves the
scratch buffer as it was; if compilation fails and every allocation
succeeds, then, from a scratch buffer state in which the capacity is 0
exactly when the buffer is absent and fits the `uint32_t` it is read into,
the loop ends after at most two calls of `regerror` and returns the scratch
buffer, whose capacity is at least the message size the engine reports. -/
theorem C20_error_text_fits_after_two_attempts (R : RegexCodes) (eng : RegexEngine)
    (regerror : Nat → regex_t → Nat) (malloc : Nat → Option Nat) (fuel : Nat)
    (st : StringBuffer) (err : Int) (re : String) :
    ((eng.regcomp re R.REG_EXTENDED).1 = 0 →
      svlib_dpi_imported_regexErrorString R eng regerror malloc fuel st err re
        = .ok ⟨none, st, 0⟩) ∧
    ((eng.regcomp re R.REG_EXTENDED).1 ≠ 0 →
      (∀ k, 0 < k → ∃ b, malloc k = some b) →
      (st.libStringBufferSize = 0 ↔ st.libStringBuffer = none) →
      st.libStringBufferSize < 4294967296 →
      regerror (eng.regcomp re R.REG_EXTENDED).1 (eng.regcomp re R.REG_EXTENDED).2
        < 4294967296 →
      ∃ r, svlib_dpi_imported_regexErrorString R eng regerror malloc (fuel + 2) st err re
          = .ok r ∧
        r.attempts ≤ 2 ∧ r.ret ≠ none ∧ r.ret = r.buffer.libStringBuffer ∧
        regerror (eng.regcomp re R.REG_EXTENDED).1 (eng.regcomp re R.REG_EXTENDED).2
          ≤ getLibStringBufferSize r.buffer ∧
        getLibStringBufferSize r.buffer = r.buffer.libStringBufferSize) := by
  constructor
  · intro hc
    simp [svlib_dpi_imported_regexErrorString, hc]
  · intro hc hm hinv hcap hneed
    generalize hn : regerror (eng.regcomp re R.REG_EXTENDED).1
      (eng.regcomp re R.REG_EXTENDED).2 = need at hneed ⊢
    obtain ⟨hbuf, hret, hsz⟩ := getLibStringBuffer_zero_with_memory malloc hm st hinv
    have hsz32 : (getLibStringBuffer malloc st 0).2.libStringBufferSize < 4294967296 := by
      rw [hsz]; split
      · decide
      · exact hcap
    have hb1 : getLibStringBufferSize (getLibStringBuffer malloc st 0).2 % 4294967296
        = (getLibStringBuffer malloc st 0).2.libStringBufferSize := by
      simp only [getLibStringBufferSize, hbuf, if_false]
      exact Nat.mod_eq_of_lt hsz32
    have hneedmod : need % 4294967296 = need := Nat.mod_eq_of_lt hneed
    simp only [svlib_dpi_imported_regexErrorString, hc, if_false, hn]
    rw [show fuel + 2 = (fuel + 1) + 1 from rfl]
    simp only [regexErrorStringLoop, hb1, hneedmod]
    by_cases hfit : (getLibStringBuffer malloc st 0).2.libStringBufferSize < need
    · have hinv1 : (getLibStringBuffer malloc st 0).2.libStringBufferSize = 0 ↔
          (getLibStringBuffer malloc st 0).2.libStringBuffer = none := by
        constructor
        · intro h0
          rw [hsz] at h0
          split at h0
          · exact absurd h0 (by decide)
          · rename_i hb; exact absurd (hinv.mp h0) hb
        · intro h0; exact absurd h0 hbuf
      obtain ⟨hbuf2, hcap2, hret2⟩ := getLibStringBuffer_with_memory malloc hm
        (getLibStringBuffer malloc st 0).2 need hinv1 (by omega)
      have hcap2n : (getLibStringBuffer malloc (getLibStringBuffer malloc st 0).2
          need).2.libStringBufferSize = need := by
        rw [hcap2]; omega
      have hb2 : getLibStringBufferSize (getLibStringBuffer malloc
          (getLibStringBuffer malloc st 0).2 need).2 % 4294967296 = need := by
        simp only [getLibStringBufferSize, hbuf2, if_false, hcap2n]
        exact hneedmod
      simp only [hfit, if_true, hb2, lt_irrefl, if_false]
      refine ⟨_, rfl, by simp, ?_, hret2, ?_, ?_⟩
      · rw [hret2]; exact hbuf2
      · simp only [getLibStringBufferSize, hbuf2, if_false, hcap2n]
        exact le_refl _
      · simp [getLibStringBufferSize, hbuf2]
    · simp only [hfit, if_false]
      refine ⟨_, rfl, by simp, ?_, hret, ?_, ?_⟩
      · rw [hret]; exact hbuf
      · simp only [getLibStringBufferSize, hbuf, if_false]
        omega
      · simp [getLibStringBufferSize, hbuf]

theorem C20_error_text_witness :
    (svlib_dpi_imported_regexErrorString glibcRegex neverMatches demoRegerror mallocSucceeds 0
        StringBuffer.initial 7 "abc" = .ok ⟨none, StringBuffer.initial, 0⟩) ∧
    (∃ r, svlib_dpi_imported_regexErrorString glibcRegex rejectsWithNine demoRegerror
        mallocSucceeds 2 StringBuffer.initial 7 "a(" = .ok r ∧
      r.attempts ≤ 2 ∧ r.ret ≠ none ∧ 300 ≤ getLibStringBufferSize r.buffer) := by
  have h1 := (C20_error_text_fits_after_two_attempts glibcRegex neverMatches demoRegerror
    mallocSucceeds 0 StringBuffer.initial 7 "abc").1 rfl
  obtain ⟨r, hr, hatt, hret, _, hfit, _⟩ :=
    (C20_error_text_fits_after_two_attempts glibcRegex rejectsWithNine demoRegerror
      mallocSucceeds 0 StringBuffer.initial 7 "a(").2 (by decide)
      (fun _ _ => ⟨7000, rfl⟩) (by simp [StringBuffer.initial]) (by decide) (by decide)
  exact ⟨h1, r, hr, hatt, hret, hfit⟩

/-! ### Handle creation -/

theorem setBuf_free_fresh (heap : Heap) (sa : Nat) (hfresh : heap.bufs sa = none) :
    (heap.setBuf sa (some saBuf.fresh)).setBuf sa none = heap := by
  cases heap with
  | mk bufs appData released =>
    simp only [Heap.setBuf, Function.update_idem]
    have : Function.update bufs sa none = bufs := by
      have := Function.update_eq_self sa bufs
      rw [show bufs sa = none from hfresh] at this
      exact this
    rw [this]

/-- C21: `saBufCreate` either returns 0 with a handle whose struct has
`sanity_check` equal to the handle, `freeFunc` the function supplied, `scan`
and `link` null, `userData` 0 and `pAppData` the companion block; or, the
first allocation failing, returns `ENOMEM` with `*created` null and the heap
untouched; or, the second allocation failing, returns `ENOMEM` with
`*created` null and the struct freed again (the heap is as before the call
when the address was fresh). -/
theorem C21_saBufCreate_handle_or_ENOMEM (E : ErrnoCodes) (heap : Heap) (m1 m2 : Option Nat)
    (ff : Option FreeFunc) :
    (∀ sa d, m1 = some sa → m2 = some d →
      (saBufCreate E heap m1 m2 ff).1 = 0 ∧ (saBufCreate E heap m1 m2 ff).2.1 = some sa ∧
      ∃ b, (saBufCreate E heap m1 m2 ff).2.2.bufs sa = some b ∧
        b.sanity_check = some sa ∧ b.freeFunc = ff ∧ b.scan = none ∧ b.link = none ∧
        b.userData = 0 ∧ b.pAppData = some d ∧
        (saBufCreate E heap m1 m2 ff).2.2.appData d = some none ∧
        (saBufCreate E heap m1 m2 ff).2.2.released = heap.released) ∧
    (m1 = none → saBufCreate E heap m1 m2 ff = (E.ENOMEM, none, heap)) ∧
    (∀ sa, m1 = some sa → m2 = none →
      (saBufCreate E heap m1 m2 ff).1 = E.ENOMEM ∧ (saBufCreate E heap m1 m2 ff).2.1 = none ∧
      (saBufCreate E heap m1 m2 ff).2.2.bufs sa = none ∧
      (saBufCreate E heap m1 m2 ff).2.2.appData = heap.appData ∧
      (saBufCreate E heap m1 m2 ff).2.2.released = heap.released ∧
      (heap.bufs sa = none → (saBufCreate E heap m1 m2 ff).2.2 = heap)) := by
  refine ⟨?_, ?_, ?_⟩
  · intro sa d h1 h2
    subst h1 h2
    rw [saBufCreate_ok]
    refine ⟨rfl, rfl, ⟨none, ff, some d, 0, none, some sa⟩, ?_, rfl, rfl, rfl, rfl, rfl, rfl,
      ?_, rfl⟩
    · simp [Heap.setBuf]
    · simp [Heap.setBuf, Heap.setAppData]
  · intro h1
    subst h1
    rfl
  · intro sa h1 h2
    subst h1 h2
    refine ⟨rfl, rfl, ?_, rfl, rfl, ?_⟩
    · simp [saBufCreate, Heap.setBuf]
    · intro hfresh
      exact setBuf_free_fresh heap sa hfresh

theorem C21_saBufCreate_witness :
    (saBufCreate glibcErrno Heap.empty (some 1000) (some 2000)
      (some FreeFunc.glob_freeFunc)).1 = 0 ∧
    (saBufCreate glibcErrno Heap.empty (some 1000) (some 2000)
      (some FreeFunc.glob_freeFunc)).2.1 = some 1000 ∧
    (saBufCreate glibcErrno Heap.empty (some 1000) none (some FreeFunc.glob_freeFunc)).1 = 12 ∧
    (saBufCreate glibcErrno Heap.empty (some 1000) none (some FreeFunc.glob_freeFunc)).2.2
      = Heap.empty :=
  have hs := (C21_saBufCreate_handle_or_ENOMEM glibcErrno Heap.empty (some 1000) (some 2000)
    (some FreeFunc.glob_freeFunc)).1 1000 2000 rfl rfl
  have hf := (C21_saBufCreate_handle_or_ENOMEM glibcErrno Heap.empty (some 1000) none
    (some FreeFunc.glob_freeFunc)).2.2 1000 rfl rfl
  ⟨hs.1, hs.2.1, hf.1, hf.2.2.2.2.2 rfl⟩

/-! ### Compile flags -/

theorem toUInt32_cast (i : Int) : ((toUInt32 i : Nat) : Int) = i % 4294967296 := by
  unfold toUInt32
  omega

theorem nocase_bit_test (options : Int) :
    (toUInt32 options &&& regexNOCASE ≠ 0) ↔ optionBit options 0 = true := by
  have h := toUInt32_cast options
  simp only [regexNOCASE, Nat.and_one_is_mod, optionBit, pow_zero, Int.ediv_one,
    decide_eq_true_eq]
  omega

theorem noline_bit_test (options : Int) :
    (toUInt32 options &&& regexNOLINE ≠ 0) ↔ optionBit options 1 = true := by
  have h := toUInt32_cast options
  have h2 := Nat.and_two_pow (toUInt32 options) 1
  simp only [pow_one] at h2
  simp only [regexNOLINE, h2, optionBit, pow_one, decide_eq_true_eq, Nat.testBit_to_div_mod]
  by_cases hb : toUInt32 options / 2 % 2 = 1
  · simp [hb]; omega
  · simp [hb]; omega

theorem nocase_ite (options : Int) (x y : Nat) :
    (if toUInt32 options &&& regexNOCASE ≠ 0 then x else y)
      = if optionBit options 0 = true then x else y := by
  by_cases h : optionBit options 0 = true
  · rw [if_pos ((nocase_bit_test options).mpr h), if_pos h]
  · rw [if_neg (fun c => h ((nocase_bit_test options).mp c)), if_neg h]

theorem noline_ite (options : Int) (x y : Nat) :
    (if toUInt32 options &&& regexNOLINE ≠ 0 then x else y)
      = if optionBit options 1 = true then x else y := by
  by_cases h : optionBit options 1 = true
  · rw [if_pos ((noline_bit_test options).mpr h), if_pos h]
  · rw [if_neg (fun c => h ((noline_bit_test options).mp c)), if_neg h]

theorem regexCflags_eq (R : RegexCodes) (options : Int) :
    regexCflags R options
      = (R.REG_EXTENDED ||| (if optionBit options 0 = true then R.REG_ICASE else 0))
          ||| (if optionBit options 1 = true then R.REG_NEWLINE else 0) := by
  unfold regexCflags
  simp only [nocase_ite, noline_ite]
  by_cases h0 : optionBit options 0 = true <;> by_cases h1 : optionBit options 1 = true <;>
    simp [h0, h1]

theorem regexRun_compiles_with_cflags (R : RegexCodes) (eng : RegexEngine) (re str : String)
    (options startPos : Int) (a : svOpenArray) (hv : PassesValidation a)
    (r : RegexRunResult)
    (hr : svlib_dpi_imported_regexRun R eng re str options startPos a = .ok r) :
    r.calls.head? = some (EngineCall.regcomp re (regexCflags R options)) := by
  rw [regexRun_checked R eng re str options startPos a hv] at hr
  unfold regexRunChecked at hr
  simp only at hr
  split at hr
  · injection hr with hr; rw [← hr]; rfl
  · split at hr
    · split at hr
      · exact absurd hr (by simp)
      · injection hr with hr; rw [← hr]; rfl
    · split at hr
      · injection hr with hr; rw [← hr]; rfl
      · injection hr with hr; rw [← hr]; rfl

/-- C22: the compile flags built from the option bitmap are `REG_EXTENDED`,
or-ed with `REG_ICASE` exactly when bit `regexNOCASE` (bit 0) of the bitmap
is set and with `REG_NEWLINE` exactly when bit `regexNOLINE` (bit 1) is set;
two bitmaps that agree on these two bits give the same flags; these flags
are what `svlib_dpi_imported_regexRun` passes to `regcomp`; and, the three
flags occupying disjoint bits, each flag can be read back from the word. -/
theorem C22_compile_flags_from_option_bits (R : RegexCodes) (options : Int) :
    regexCflags R options
      = (R.REG_EXTENDED ||| (if optionBit options 0 = true then R.REG_ICASE else 0))
          ||| (if optionBit options 1 = true then R.REG_NEWLINE else 0) ∧
    (∀ other : Int, optionBit other 0 = optionBit options 0 →
      optionBit other 1 = optionBit options 1 → regexCflags R other = regexCflags R options) ∧
    (∀ (eng : RegexEngine) (re str : String) (startPos : Int) (a : svOpenArray)
      (r : RegexRunResult), PassesValidation a →
      svlib_dpi_imported_regexRun R eng re str options startPos a = .ok r →
      r.calls.head? = some (EngineCall.regcomp re (regexCflags R options))) ∧
    (R.DisjointFlags →
      regexCflags R options &&& R.REG_EXTENDED = R.REG_EXTENDED ∧
      regexCflags R options &&& R.REG_ICASE
        = (if optionBit options 0 = true then R.REG_ICASE else 0) ∧
      regexCflags R options &&& R.REG_NEWLINE
        = (if optionBit options 1 = true then R.REG_NEWLINE else 0)) := by
  refine ⟨regexCflags_eq R options, ?_, ?_, ?_⟩
  · intro other h0 h1
    rw [regexCflags_eq R other, regexCflags_eq R options, h0, h1]
  · intro eng re str startPos a r hv hr
    exact regexRun_compiles_with_cflags R eng re str options startPos a hv r hr
  · rintro ⟨hei, hen, hin⟩
    have hie : R.REG_ICASE &&& R.REG_EXTENDED = 0 := by rw [Nat.and_comm]; exact hei
    have hne : R.REG_NEWLINE &&& R.REG_EXTENDED = 0 := by rw [Nat.and_comm]; exact hen
    have hni : R.REG_NEWLINE &&& R.REG_ICASE = 0 := by rw [Nat.and_comm]; exact hin
    rw [regexCflags_eq R options]
    refine ⟨?_, ?_, ?_⟩
    · rw [Nat.and_distrib_right, Nat.and_distrib_right]
      by_cases h0 : optionBit options 0 = true <;> by_cases h1 : optionBit options 1 = true <;>
        simp [h0, h1, hie, hne]
    · rw [Nat.and_distrib_right, Nat.and_distrib_right]
      by_cases h0 : optionBit options 0 = true <;> by_cases h1 : optionBit options 1 = true <;>
        simp [h0, h1, hei, hni]
    · rw [Nat.and_distrib_right, Nat.and_distrib_right]
      by_cases h0 : optionBit options 0 = true <;> by_cases h1 : optionBit options 1 = true <;>
        simp [h0, h1, hen, hin]

theorem C22_compile_flags_witness :
    glibcRegex.DisjointFlags ∧ PassesValidation fourSlots ∧
    regexCflags glibcRegex 0 = 1 ∧ regexCflags glibcRegex 1 = 3 ∧
    regexCflags glibcRegex 2 = 5 ∧ regexCflags glibcRegex 3 = 7 ∧
    regexCflags glibcRegex (-4) = 1 ∧ regexCflags glibcRegex 6 = regexCflags glibcRegex 2 ∧
    (∀ r, svlib_dpi_imported_regexRun glibcRegex neverMatches "abc" "xyz" 3 0 fourSlots = .ok r →
      r.calls.head? = some (EngineCall.regcomp "abc" 7)) := by
  have hd : glibcRegex.DisjointFlags := by
    unfold RegexCodes.DisjointFlags glibcRegex
    decide
  have hv : PassesValidation fourSlots := ⟨rfl, rfl, fun _ => rfl⟩
  have h3 := C22_compile_flags_from_option_bits glibcRegex 3
  have e3 : regexCflags glibcRegex 3 = 7 := h3.1.trans (by decide)
  refine ⟨hd, hv, (C22_compile_flags_from_option_bits glibcRegex 0).1.trans (by decide),
    (C22_compile_flags_from_option_bits glibcRegex 1).1.trans (by decide),
    (C22_compile_flags_from_option_bits glibcRegex 2).1.trans (by decide), e3,
    (C22_compile_flags_from_option_bits glibcRegex (-4)).1.trans (by decide),
    (C22_compile_flags_from_option_bits glibcRegex 2).2.1 6 (by decide) (by decide), ?_⟩
  intro r hr
  have := h3.2.2.1 neverMatches "abc" "xyz" 0 fourSlots r hv hr
  rw [e3] at this
  exact this

/-! ### Argument-file flattener: the handle during a traversal -/

theorem getVlogInfoNextLoop_ignores_handle (h1 h2 : Option (List Cell)) :
    ∀ fuel stack ptr,
      returnedAndState (getVlogInfoNextLoop fuel stack ptr h1)
        = returnedAndState (getVlogInfoNextLoop fuel stack ptr h2) := by
  intro fuel
  induction fuel with
  | zero => intro stack ptr; rfl
  | succ fuel ih =>
    intro stack ptr
    rcases hs : stack[ptr]? with _ | _ | f
    · simp [getVlogInfoNextLoop, hs, returnedAndState, Except.map]
    · simp [getVlogInfoNextLoop, hs, returnedAndState, Except.map]
    · cases f with
      | nil =>
        by_cases hp : ptr = 0
        · subst hp
          simp [getVlogInfoNextLoop, hs, returnedAndState, Except.map]
        · simp only [getVlogInfoNextLoop, hs, hp, if_false]
          exact ih _ _
      | cons c rest =>
        cases c with
        | vec v => simp [getVlogInfoNextLoop, hs, returnedAndState, Except.map]
        | str s =>
          by_cases hflag : isIndirection s = true
          · by_cases hsize : ARGV_STACK_PTR_SIZE ≤ ptr + 1
            · simp [getVlogInfoNextLoop, hs, hflag, hsize, returnedAndState, Except.map]
            · cases rest with
              | nil => simp [getVlogInfoNextLoop, hs, hflag, hsize, returnedAndState, Except.map]
              | cons c2 rest2 =>
                cases c2 with
                | str s2 =>
                  simp [getVlogInfoNextLoop, hs, hflag, hsize, returnedAndState, Except.map]
                | vec v =>
                  cases v with
                  | nil =>
                    simp [getVlogInfoNextLoop, hs, hflag, hsize, returnedAndState, Except.map]
                  | cons label body =>
                    have hlt : ptr + 1 < ARGV_STACK_PTR_SIZE := Nat.lt_of_not_le hsize
                    simp only [getVlogInfoNextLoop, hs, hflag, hsize, hlt, if_true, if_false]
                    exact ih _ _
          · simp [getVlogInfoNextLoop, hs, hflag, returnedAndState, Except.map]

/-- C23: while a traversal is in progress (the static `argv_stack` is not
`NULL`), two calls of `svlib_dpi_imported_getVlogInfoNext` from the same
statics with different handle arguments return the same string and leave
the same statics (or stop on the same fault). On the first call of a
traversal the root vector is read from the handle: two different handles
give different results, and a handle on another vector passed to the second
call changes nothing. -/
theorem C23_handle_ignored_while_traversing :
    (∀ (stack : List (Option (List Cell))) (ptr : Nat) (h1 h2 : Option (List Cell)),
      returnedAndState (svlib_dpi_imported_getVlogInfoNext ⟨some stack, ptr⟩ h1)
        = returnedAndState (svlib_dpi_imported_getVlogInfoNext ⟨some stack, ptr⟩ h2)) ∧
    returnedAndState (svlib_dpi_imported_getVlogInfoNext FlatState.initial
        (some [.str "a.sv", .str "b.sv"]))
      = .ok (some "a.sv", ⟨some ((List.replicate 32 none).set 0 (some [.str "b.sv"])), 0⟩) ∧
    returnedAndState (svlib_dpi_imported_getVlogInfoNext FlatState.initial
        (some [.str "c.sv"]))
      = .ok (some "c.sv", ⟨some ((List.replicate 32 none).set 0 (some [])), 0⟩) ∧
    returnedAndState (svlib_dpi_imported_getVlogInfoNext
        ⟨some ((List.replicate 32 none).set 0 (some [.str "b.sv"])), 0⟩ (some [.str "c.sv"]))
      = .ok (some "b.sv", ⟨some ((List.replicate 32 none).set 0 (some [])), 0⟩) :=
  ⟨fun stack ptr h1 h2 => getVlogInfoNextLoop_ignores_handle h1 h2 _ stack ptr, rfl, rfl, rfl⟩

/-! ### Local time: the leap-year flag -/

theorem storeItem_ok (timeItems : List Int) (i : Nat) (v : Int) (hi : i < timeItems.length) :
    storeItem timeItems i v = .ok (timeItems.set i v) := by
  simp [storeItem, hi]

end Svlib
